import Mathlib

/-!
igvc-firmware: motor control core (`src/mbed/main.cpp`, `src/mbed/threaded_main.cpp`)

Shallow embedding of the PID velocity loop, the e-stop handling and the session
loop of the firmware, with the properties of the specification stated over it.

Numbers.

The C++ `float`/`double` values are embedded as `Flt`: a finite value is an exact
rational, and the negative zero and the three IEEE-754 special values (`+inf`,
`-inf`, `NaN`) are kept with their IEEE arithmetic, so that a division by zero
yields what the hardware
yields (`x / 0 = ±inf`, `0 / 0 = NaN`) instead of a conventional value.
Zero carries its sign (`fin 0` is `+0.0`, `nzero` is `-0.0`), as the sign of a zero
divisor decides the sign of the infinity. Idealisations: finite arithmetic is
exact (no rounding, no overflow to infinity, no underflow to zero).

Environment.

Everything the firmware reads from hardware or from libraries that are not part
of the repository sources (timer, encoders, motor controller read-back, battery,
safety line, nanopb decode/encode) is an explicit input of the function that
reads it. Commands sent to the actuator and frames sent to the client are
appended to a trace.
-/

namespace Igvc

/-! ## Floating-point values -/

/-- Value of a C++ floating-point object: an exact finite value (`fin 0` is
`+0.0`), the negative zero `-0.0`, or one of the IEEE-754 special values. -/
inductive Flt where
  | fin (q : ℚ)
  | nzero
  | pinf
  | ninf
  | nan
  deriving DecidableEq

namespace Flt

/-- Conversion of an integer (`static_cast<float>(int)`, or the usual arithmetic
conversion of an `int` operand); the integer 0 converts to `+0.0`. -/
def ofInt (n : Int) : Flt := fin n

/-- The zero of the given sign: `-0.0` when `negative`, else `+0.0`. -/
def zeroOfSign (negative : Bool) : Flt := if negative then nzero else fin 0

/-- Unary minus; it flips the sign of a zero. -/
def neg : Flt → Flt
  | fin q => if q = 0 then nzero else fin (-q)
  | nzero => fin 0
  | pinf => ninf
  | ninf => pinf
  | nan => nan

/-- IEEE addition: `inf + (-inf)` is NaN; a zero sum is `+0.0` unless both
operands are `-0.0`. -/
def add : Flt → Flt → Flt
  | nan, _ => nan
  | _, nan => nan
  | fin a, fin b => fin (a + b)
  | fin a, nzero => fin a
  | nzero, fin b => fin b
  | nzero, nzero => nzero
  | fin _, pinf => pinf
  | fin _, ninf => ninf
  | nzero, pinf => pinf
  | nzero, ninf => ninf
  | pinf, fin _ => pinf
  | ninf, fin _ => ninf
  | pinf, nzero => pinf
  | ninf, nzero => ninf
  | pinf, pinf => pinf
  | ninf, ninf => ninf
  | pinf, ninf => nan
  | ninf, pinf => nan

/-- IEEE subtraction, `a - b = a + (-b)`. -/
def sub (a b : Flt) : Flt := add a (neg b)

/-- Product of an infinity of sign `pos` with the finite value `q`:
`inf * 0` is NaN. -/
def infTimes (pos : Bool) (q : ℚ) : Flt :=
  if q = 0 then nan
  else if (0 < q) = pos then pinf else ninf

/-- IEEE multiplication; a zero product carries the exclusive or of the signs
of the operands. -/
def mul : Flt → Flt → Flt
  | nan, _ => nan
  | _, nan => nan
  | fin a, fin b =>
      if a * b = 0 then zeroOfSign (xor (decide (a < 0)) (decide (b < 0))) else fin (a * b)
  | fin a, nzero => zeroOfSign (!decide (a < 0))
  | nzero, fin b => zeroOfSign (!decide (b < 0))
  | nzero, nzero => fin 0
  | fin a, pinf => infTimes true a
  | fin a, ninf => infTimes false a
  | nzero, pinf => nan
  | nzero, ninf => nan
  | pinf, fin b => infTimes true b
  | ninf, fin b => infTimes false b
  | pinf, nzero => nan
  | ninf, nzero => nan
  | pinf, pinf => pinf
  | ninf, ninf => pinf
  | pinf, ninf => ninf
  | ninf, pinf => ninf

/-- IEEE division: a non-zero finite value divided by a zero is the infinity
whose sign is the exclusive or of the signs of the operands (`60 / +0.0 = +inf`,
`60 / -0.0 = -inf`), `0 / 0` and `inf / inf` are NaN, a finite value divided by
an infinity is a zero. -/
def div : Flt → Flt → Flt
  | nan, _ => nan
  | _, nan => nan
  | fin a, fin b =>
      if b = 0 then
        (if a = 0 then nan else if 0 < a then pinf else ninf)
      else if a = 0 then zeroOfSign (decide (b < 0))
      else fin (a / b)
  | fin a, nzero => if a = 0 then nan else if 0 < a then ninf else pinf
  | nzero, fin b => if b = 0 then nan else zeroOfSign (decide (0 < b))
  | nzero, nzero => nan
  | fin a, pinf => zeroOfSign (decide (a < 0))
  | fin a, ninf => zeroOfSign (!decide (a < 0))
  | nzero, pinf => nzero
  | nzero, ninf => fin 0
  | pinf, fin b => if 0 ≤ b then pinf else ninf
  | ninf, fin b => if 0 ≤ b then ninf else pinf
  | pinf, nzero => ninf
  | ninf, nzero => pinf
  | pinf, pinf => nan
  | ninf, ninf => nan
  | pinf, ninf => nan
  | ninf, pinf => nan

/-- The comparison `a < b`; false as soon as one operand is NaN; the two zeros
compare equal. -/
def lt : Flt → Flt → Bool
  | nan, _ => false
  | _, nan => false
  | fin a, fin b => decide (a < b)
  | fin a, nzero => decide (a < 0)
  | nzero, fin b => decide (0 < b)
  | nzero, nzero => false
  | fin _, pinf => true
  | nzero, pinf => true
  | fin _, ninf => false
  | nzero, ninf => false
  | pinf, _ => false
  | ninf, fin _ => true
  | ninf, nzero => true
  | ninf, pinf => true
  | ninf, ninf => false

/-- The comparison `a >= b`; false as soon as one operand is NaN. -/
def ge : Flt → Flt → Bool
  | nan, _ => false
  | _, nan => false
  | fin a, fin b => decide (b ≤ a)
  | fin a, nzero => decide (0 ≤ a)
  | nzero, fin b => decide (b ≤ 0)
  | nzero, nzero => true
  | fin _, pinf => false
  | nzero, pinf => false
  | fin _, ninf => true
  | nzero, ninf => true
  | pinf, _ => true
  | ninf, fin _ => false
  | ninf, nzero => false
  | ninf, pinf => false
  | ninf, ninf => true

/-- Absolute value (`abs` on a floating-point argument). -/
def abs : Flt → Flt
  | fin q => fin |q|
  | nzero => fin 0
  | pinf => pinf
  | ninf => pinf
  | nan => nan

/-- Template `std::min(a, b)`: `(b < a) ? b : a`. -/
def min (a b : Flt) : Flt := if lt b a then b else a

/-- Template `std::max(a, b)`: `(a < b) ? b : a`. -/
def max (a b : Flt) : Flt := if lt a b then b else a

/-- C `round` on a rational: nearest integer, halves away from zero. -/
def roundQ (q : ℚ) : Int :=
  if 0 ≤ q then ⌊q + 1 / 2⌋ else -⌊-q + 1 / 2⌋

/-- C `round`: infinities, NaN and `-0.0` are returned unchanged; a negative
value that rounds to zero gives `-0.0`. -/
def round : Flt → Flt
  | fin q => if q < 0 ∧ roundQ q = 0 then nzero else fin (roundQ q)
  | x => x

/-- Conversion `static_cast<int>(x)` to a 32-bit `int`: truncation toward zero.
The conversion is undefined (`none`) for NaN, for the infinities and for a value
whose truncation is not representable. -/
def toInt : Flt → Option Int
  | fin q =>
      let t : Int := if 0 ≤ q then ⌊q⌋ else -⌊-q⌋
      if -2147483648 ≤ t ∧ t ≤ 2147483647 then some t else none
  | nzero => some 0
  | _ => none

/-- Finite values: neither an infinity nor NaN. -/
def isFinite : Flt → Bool
  | fin _ => true
  | nzero => true
  | _ => false

/-- Test for NaN. -/
def isNaN : Flt → Bool
  | nan => true
  | _ => false

/-- The number a finite value stands for (both zeros stand for 0); `none` for
the infinities and NaN. -/
def toRat : Flt → Option ℚ
  | fin q => some q
  | nzero => some 0
  | _ => none

end Flt

/-! ## Data shared by the two variants -/

/-- Inbound command frame (`RequestMessage` of `igvc.pb.h`, generated by nanopb):
the two presence flags the firmware tests and the fields it reads. -/
structure RequestMessage where
  has_p_l : Bool
  p_l : Flt
  p_r : Flt
  i_l : Flt
  i_r : Flt
  d_l : Flt
  d_r : Flt
  kv_l : Flt
  kv_r : Flt
  has_speed_l : Bool
  speed_l : Flt
  speed_r : Flt
  deriving DecidableEq

/-- Outbound telemetry frame (`ResponseMessage`); `sendResponse` sets every
presence flag, so only the values are kept. -/
structure ResponseMessage where
  p_l : Flt
  p_r : Flt
  i_l : Flt
  i_r : Flt
  d_l : Flt
  d_r : Flt
  speed_l : Flt
  speed_r : Flt
  dt_sec : Flt
  voltage : Flt
  estop : Bool
  kv_l : Flt
  kv_r : Flt
  left_output : Int
  right_output : Int
  deriving DecidableEq

/-- What the firmware emits: the two commands of the motor controller and a
telemetry frame sent to the client. A signal is `none` when the conversion to
`int` that produced it is undefined. -/
inductive Out where
  | stopMotors
  | setSpeeds (right_signal left_signal : Option Int)
  | send (response : ResponseMessage)
  deriving DecidableEq

/-- Values read from the hardware during one PID step. -/
structure PidReadings where
  /-- The `read_ms()` of step 1 (elapsed time). -/
  timer_ms_dt : Int
  /-- The `read()` of the horizon test, in seconds. -/
  timer_s : Flt
  /-- The `read_ms()` stored as the new time base. -/
  timer_ms_last : Int
  left_ticks : Int
  right_ticks : Int
  /-- Result of `getLeftOutput()` after `setSpeeds`. -/
  left_output : Int
  /-- Result of `getRightOutput()` after `setSpeeds`. -/
  right_output : Int

/-- Values read from the hardware and the libraries while one decoded frame is
served by the session loop. -/
structure FrameReadings where
  /-- The `g_timer.read_ms()` of the timer-reset test of the session loop. -/
  timer_ms : Int
  /-- The `g_e_stop_status.read()` of the e-stop logic (0 is the tripped level). -/
  e_stop_status : Int
  pid : PidReadings
  /-- The `g_battery.read()` of `sendResponse`. -/
  battery : Flt
  /-- Whether `pb_encode` succeeds. -/
  encode_ok : Bool

/-- What the blocking calls of `main` return, one event per call. -/
inductive Event where
  /-- `server_socket.accept()` returns a client. -/
  | accept
  /-- `recv` returns `n < 0`. -/
  | recvError
  /-- `recv` returns `n == 0`. -/
  | peerClose
  /-- `recv` returns `n > 0` bytes; the readings are those of the iteration. -/
  | frame (buffer : List UInt8) (rd : FrameReadings)

/-! ## `main.cpp`: the single-loop variant -/

namespace Main

/-- One channel of `MotorCoeffs` (`utils.h`). -/
structure MotorCoeff where
  k_p : Flt
  k_i : Flt
  k_d : Flt
  k_kv : Flt
  deriving DecidableEq

/-- The type `MotorCoeffs` of `utils.h`. -/
structure MotorCoeffs where
  left : MotorCoeff
  right : MotorCoeff
  deriving DecidableEq

/-- One channel of `MotorStatusPair` (`utils.h`). -/
structure MotorStatus where
  desired_speed : Flt
  actual_speed : Flt
  ctrl_output : Int
  deriving DecidableEq

/-- The type `MotorStatusPair` of `utils.h`. -/
structure MotorStatusPair where
  left : MotorStatus
  right : MotorStatus
  deriving DecidableEq

/-- The globals of `main.cpp`, the control location of `main` (`in_session`:
inside the inner loop, a client is connected) and the trace of what was emitted
so far, oldest first. -/
structure State where
  g_last_cmd_time : Int
  g_last_loop_time : Int
  g_error_l : Flt
  g_error_r : Flt
  g_d_error_l : Flt
  g_d_error_r : Flt
  g_i_error_l : Flt
  g_i_error_r : Flt
  g_d_t_sec : Flt
  g_actual_speed_last_l : Flt
  g_actual_speed_last_r : Flt
  g_low_passed_pv_l : Flt
  g_low_passed_pv_r : Flt
  g_motor_coeffs : MotorCoeffs
  g_motor_pair : MotorStatusPair
  g_estop : Int
  g_safety_light_enable : Int
  in_session : Bool
  trace : List Out
  deriving DecidableEq

/-- The initialisers of the globals; `main` has not accepted a client yet. -/
def init : State where
  g_last_cmd_time := 0
  g_last_loop_time := 0
  g_error_l := .fin 0
  g_error_r := .fin 0
  g_d_error_l := .fin 0
  g_d_error_r := .fin 0
  g_i_error_l := .fin 0
  g_i_error_r := .fin 0
  g_d_t_sec := .fin 0
  g_actual_speed_last_l := .fin 0
  g_actual_speed_last_r := .fin 0
  g_low_passed_pv_l := .fin 0
  g_low_passed_pv_r := .fin 0
  g_motor_coeffs := ⟨⟨.fin 0, .fin 0, .fin 0, .fin 0⟩, ⟨.fin 0, .fin 0, .fin 0, .fin 0⟩⟩
  g_motor_pair := ⟨⟨.fin 0, .fin 0, 0⟩, ⟨.fin 0, .fin 0, 0⟩⟩
  g_estop := 1
  g_safety_light_enable := 0
  in_session := false
  trace := []

/-- The function `triggerEstop()` of `main.cpp`. -/
def triggerEstop (s : State) : State :=
  let s := { s with g_estop := 0 }
  let s := { s with g_motor_pair.left.desired_speed := .fin 0 }
  let s := { s with g_motor_pair.right.desired_speed := .fin 0 }
  let s := { s with g_i_error_l := .fin 0 }
  let s := { s with g_i_error_r := .fin 0 }
  let s := { s with trace := s.trace ++ [Out.stopMotors] }
  { s with g_safety_light_enable := 1 }

/-- The function `parseRequest(req)` of `main.cpp`. -/
def parseRequest (req : RequestMessage) (s : State) : State :=
  let s :=
    if req.has_p_l then
      { s with
        g_motor_coeffs.left.k_p := req.p_l
        g_motor_coeffs.right.k_p := req.p_r
        g_motor_coeffs.left.k_d := req.d_l
        g_motor_coeffs.right.k_d := req.d_r
        g_motor_coeffs.left.k_i := req.i_l
        g_motor_coeffs.right.k_i := req.i_r
        g_motor_coeffs.left.k_kv := req.kv_l
        g_motor_coeffs.right.k_kv := req.kv_r }
    else s
  if req.has_speed_l then
    { s with
      g_motor_pair.left.desired_speed := req.speed_l
      g_motor_pair.right.desired_speed := req.speed_r }
  else s

/-- The local `i_clamp` of `pid()`: `60 / g_motor_coeffs.left.k_i`. -/
def i_clamp (s : State) : Flt := Flt.div (.fin 60) s.g_motor_coeffs.left.k_i

/-- The function `pid()` of `main.cpp`. `meters_per_tick` is the value of the
macro `METERS_PER_TICK` (`utils.h`). Each assignment of the source is a `let`
named after the variable assigned; the globals are written back at the end. -/
def pid (meters_per_tick : Flt) (rd : PidReadings) (s : State) : State :=
  -- 1: Calculate dt
  let g_d_t_sec : Flt := Flt.div (Flt.ofInt (rd.timer_ms_dt - s.g_last_loop_time)) (.fin 1000)
  -- `if (g_timer.read() >= 1700) { g_timer.reset(); g_last_loop_time = 0; }`: the
  -- assignment of the branch is overwritten by the one that follows it
  let g_last_loop_time : Int := rd.timer_ms_last
  -- 2: Convert encoder values into velocity
  let actual_speed_l : Flt :=
    Flt.div (Flt.mul meters_per_tick (Flt.ofInt rd.left_ticks)) g_d_t_sec
  let actual_speed_r : Flt :=
    Flt.div (Flt.mul meters_per_tick (Flt.ofInt rd.right_ticks)) g_d_t_sec
  -- 3: Calculate error
  let g_error_l : Flt := Flt.sub s.g_motor_pair.left.desired_speed actual_speed_l
  let g_error_r : Flt := Flt.sub s.g_motor_pair.right.desired_speed actual_speed_r
  -- 4: Calculate Derivative Error
  let alpha : Flt := .fin (3 / 4)
  let g_low_passed_pv_l : Flt :=
    Flt.add
      (Flt.div (Flt.mul alpha (Flt.sub s.g_actual_speed_last_l actual_speed_l)) g_d_t_sec)
      (Flt.mul (Flt.sub (.fin 1) alpha) s.g_low_passed_pv_l)
  let g_low_passed_pv_r : Flt :=
    Flt.add
      (Flt.div (Flt.mul alpha (Flt.sub s.g_actual_speed_last_r actual_speed_r)) g_d_t_sec)
      (Flt.mul (Flt.sub (.fin 1) alpha) s.g_low_passed_pv_r)
  let g_d_error_l : Flt := g_low_passed_pv_l
  let g_d_error_r : Flt := g_low_passed_pv_r
  -- 5a: Calculate Integral Error
  let g_i_error_l : Flt := Flt.add s.g_i_error_l (Flt.mul g_error_l g_d_t_sec)
  let g_i_error_r : Flt := Flt.add s.g_i_error_r (Flt.mul g_error_r g_d_t_sec)
  -- 5b: Perform clamping
  let i_clamp : Flt := i_clamp s
  let g_i_error_l : Flt := Flt.min i_clamp (Flt.max (Flt.neg i_clamp) g_i_error_l)
  let g_i_error_r : Flt := Flt.min i_clamp (Flt.max (Flt.neg i_clamp) g_i_error_r)
  -- 6: Sum P, I and D terms
  let feedback_left : Flt :=
    Flt.add
      (Flt.add (Flt.mul s.g_motor_coeffs.left.k_p g_error_l)
        (Flt.mul s.g_motor_coeffs.left.k_d g_d_error_l))
      (Flt.mul s.g_motor_coeffs.left.k_i g_i_error_l)
  let feedback_right : Flt :=
    Flt.add
      (Flt.add (Flt.mul s.g_motor_coeffs.right.k_p g_error_r)
        (Flt.mul s.g_motor_coeffs.right.k_d g_d_error_r))
      (Flt.mul s.g_motor_coeffs.right.k_i g_i_error_r)
  -- 7: Calculate feedforward
  let feedforward_left : Flt :=
    Flt.mul s.g_motor_coeffs.left.k_kv s.g_motor_pair.left.desired_speed
  let feedforward_right : Flt :=
    Flt.mul s.g_motor_coeffs.right.k_kv s.g_motor_pair.right.desired_speed
  let left_signal : Option Int := Flt.toInt (Flt.round (Flt.add feedforward_left feedback_left))
  let right_signal : Option Int :=
    Flt.toInt (Flt.round (Flt.add feedforward_right feedback_right))
  -- 8: Deadband
  let left_signal : Option Int :=
    if Flt.lt (Flt.abs actual_speed_l) (.fin (4 / 25))
        && Flt.lt (Flt.abs s.g_motor_pair.left.desired_speed) (.fin (4 / 25))
    then some 0 else left_signal
  let right_signal : Option Int :=
    if Flt.lt (Flt.abs actual_speed_r) (.fin (4 / 25))
        && Flt.lt (Flt.abs s.g_motor_pair.right.desired_speed) (.fin (4 / 25))
    then some 0 else right_signal
  { s with
    g_d_t_sec := g_d_t_sec
    g_last_loop_time := g_last_loop_time
    g_error_l := g_error_l
    g_error_r := g_error_r
    g_low_passed_pv_l := g_low_passed_pv_l
    g_low_passed_pv_r := g_low_passed_pv_r
    g_d_error_l := g_d_error_l
    g_d_error_r := g_d_error_r
    g_i_error_l := g_i_error_l
    g_i_error_r := g_i_error_r
    trace := s.trace ++ [Out.setSpeeds right_signal left_signal]
    g_motor_pair :=
      { left :=
          { desired_speed := s.g_motor_pair.left.desired_speed
            actual_speed := actual_speed_l
            ctrl_output := rd.left_output }
        right :=
          { desired_speed := s.g_motor_pair.right.desired_speed
            actual_speed := actual_speed_r
            ctrl_output := rd.right_output } }
    g_actual_speed_last_l := actual_speed_l
    g_actual_speed_last_r := actual_speed_r }

/-- The message `sendResponse` fills in from the globals and the battery
reading. -/
def response (battery : Flt) (s : State) : ResponseMessage where
  p_l := s.g_motor_coeffs.left.k_p
  p_r := s.g_motor_coeffs.right.k_p
  i_l := s.g_motor_coeffs.left.k_i
  i_r := s.g_motor_coeffs.right.k_i
  d_l := s.g_motor_coeffs.left.k_d
  d_r := s.g_motor_coeffs.right.k_d
  speed_l := s.g_motor_pair.left.actual_speed
  speed_r := s.g_motor_pair.right.actual_speed
  dt_sec := s.g_d_t_sec
  voltage := Flt.div (Flt.mul (Flt.mul battery (.fin (33 / 10))) (.fin 521)) (.fin 51)
  estop := decide (s.g_estop ≠ 0)
  kv_l := s.g_motor_coeffs.left.k_kv
  kv_r := s.g_motor_coeffs.right.k_kv
  left_output := s.g_motor_pair.left.ctrl_output
  right_output := s.g_motor_pair.right.ctrl_output

/-- The function `sendResponse(client)` of `main.cpp`: the state after the call
and the returned flag; nothing is sent when encoding fails. -/
def sendResponse (battery : Flt) (encode_ok : Bool) (s : State) : State × Bool :=
  if !encode_ok then (s, false)
  else ({ s with trace := s.trace ++ [Out.send (response battery s)] }, true)

/-- The timer-reset block of the session loop (`g_timer.read_ms() > pow(2, 20)`). -/
def timerCheck (timer_ms : Int) (s : State) : State :=
  if timer_ms > 2 ^ 20 then { s with g_last_cmd_time := 0 } else s

/-- The e-stop block of the session loop. -/
def estopLogic (e_stop_status : Int) (s : State) : State :=
  if e_stop_status = 0 then triggerEstop s
  else
    let s := { s with g_estop := 1 }
    { s with g_safety_light_enable := 0 }

/-- The session loop from `parseRequest(request)` up to the call of `pid()`: the
result is the state in which `pid()` is invoked. -/
def beforePid (req : RequestMessage) (rd : FrameReadings) (s : State) : State :=
  estopLogic rd.e_stop_status (timerCheck rd.timer_ms (parseRequest req s))

/-- The session loop for a frame that has been decoded: from `parseRequest` to
the end of the iteration. -/
def serveRequest (meters_per_tick : Flt) (req : RequestMessage) (rd : FrameReadings)
    (s : State) : State :=
  let s := beforePid req rd s
  let s := pid meters_per_tick rd.pid s
  (sendResponse rd.battery rd.encode_ok s).1

/-- One blocking call of `main` and what follows it up to the next blocking call.
`pb_decode` is the nanopb decoder (`none`: decoding failed). An event that the
current control location does not wait for cannot occur and leaves the state as
it is. -/
def step (meters_per_tick : Flt) (pb_decode : List UInt8 → Option RequestMessage)
    (s : State) : Event → State
  | .accept =>
      if s.in_session then s
      else
        let s := { s with g_estop := 1 }
        { s with in_session := true }
  | .recvError => s
  | .peerClose =>
      if s.in_session then
        let s := triggerEstop s
        { s with in_session := false }
      else s
  | .frame buffer rd =>
      if s.in_session then
        match pb_decode buffer with
        | none => s
        | some request => serveRequest meters_per_tick request rd s
      else s

/-- The function `main` of `main.cpp` from the state `s` on, fed with the results
of its blocking calls. -/
def run (meters_per_tick : Flt) (pb_decode : List UInt8 → Option RequestMessage)
    (s : State) (events : List Event) : State :=
  events.foldl (step meters_per_tick pb_decode) s

end Main

/-! ## `threaded_main.cpp`: the variant with a control thread -/

namespace Threaded

/-- The constant `g_meters_per_tick = g_wheel_circum / (g_ticks_per_rev * g_gear_ratio)`. -/
def g_meters_per_tick : Flt := Flt.div (.fin (1092 / 1000)) (Flt.mul (Flt.ofInt 48) (.fin 32))

/-- The globals of `threaded_main.cpp`, the locals of `pid_thread` that live
across its loop iterations (the fields without the `g_` prefix) and the trace of
what was emitted so far, oldest first. -/
structure State where
  g_desired_speed_l : Flt
  g_desired_speed_r : Flt
  g_actual_speed_l : Flt
  g_actual_speed_r : Flt
  g_i_error_l : Flt
  g_i_error_r : Flt
  g_d_t_sec : Flt
  g_last_error_l : Flt
  g_last_error_r : Flt
  g_p_l : Flt
  g_d_l : Flt
  g_p_r : Flt
  g_d_r : Flt
  g_i_l : Flt
  g_i_r : Flt
  g_kv_l : Flt
  g_kv_r : Flt
  g_left_output : Int
  g_right_output : Int
  g_estop : Int
  g_e_stop_light : Int
  last_loop_time : Int
  error_l : Flt
  error_r : Flt
  d_error_l : Flt
  d_error_r : Flt
  actual_speed_last_l : Flt
  actual_speed_last_r : Flt
  low_passed_pv_l : Flt
  low_passed_pv_r : Flt
  trace : List Out
  deriving DecidableEq

/-- The function `triggerEstop()` of `threaded_main.cpp`. -/
def triggerEstop (s : State) : State :=
  { s with
    g_estop := 0
    g_desired_speed_l := .fin 0
    g_desired_speed_r := .fin 0
    g_i_error_l := .fin 0
    g_i_error_r := .fin 0
    trace := s.trace ++ [Out.stopMotors]
    g_e_stop_light := 1 }

/-- The function `parseRequest(req)` of `threaded_main.cpp`. -/
def parseRequest (req : RequestMessage) (s : State) : State :=
  let s :=
    if req.has_p_l then
      { s with
        g_p_l := req.p_l
        g_p_r := req.p_r
        g_d_l := req.d_l
        g_d_r := req.d_r
        g_i_l := req.i_l
        g_i_r := req.i_r
        g_kv_l := req.kv_l
        g_kv_r := req.kv_r }
    else s
  if req.has_speed_l then
    { s with
      g_desired_speed_l := req.speed_l
      g_desired_speed_r := req.speed_r }
  else s

/-- The local `i_clamp` of the loop of `pid_thread()`: `60 / g_i_l`. -/
def i_clamp (s : State) : Flt := Flt.div (.fin 60) s.g_i_l

/-- One iteration of the `while (true)` loop of `pid_thread()`, run without
interference of the session thread. Each assignment of the source is a `let`
named after the variable assigned; the variables are written back at the end. -/
def pid_thread_iter (rd : PidReadings) (s : State) : State :=
  -- 1: Calculate dt
  let g_d_t_sec : Flt := Flt.div (Flt.ofInt (rd.timer_ms_dt - s.last_loop_time)) (.fin 1000)
  -- `if (timer.read() >= 1700) { timer.reset(); last_loop_time = 0; }`: the
  -- assignment of the branch is overwritten by the one that follows it
  let last_loop_time : Int := rd.timer_ms_last
  -- 2: Convert encoder values into velocity
  let g_actual_speed_l : Flt :=
    Flt.div (Flt.mul g_meters_per_tick (Flt.ofInt rd.left_ticks)) g_d_t_sec
  let g_actual_speed_r : Flt :=
    Flt.div (Flt.mul g_meters_per_tick (Flt.ofInt rd.right_ticks)) g_d_t_sec
  -- 3: Calculate error
  let error_l : Flt := Flt.sub s.g_desired_speed_l g_actual_speed_l
  let error_r : Flt := Flt.sub s.g_desired_speed_r g_actual_speed_r
  -- 4: Calculate Derivative Error
  let alpha : Flt := .fin (3 / 4)
  let low_passed_pv_l : Flt :=
    Flt.add
      (Flt.div (Flt.mul alpha (Flt.sub s.actual_speed_last_l g_actual_speed_l)) g_d_t_sec)
      (Flt.mul (Flt.sub (.fin 1) alpha) s.low_passed_pv_l)
  let low_passed_pv_r : Flt :=
    Flt.add
      (Flt.div (Flt.mul alpha (Flt.sub s.actual_speed_last_r g_actual_speed_r)) g_d_t_sec)
      (Flt.mul (Flt.sub (.fin 1) alpha) s.low_passed_pv_r)
  let d_error_l : Flt := low_passed_pv_l
  let d_error_r : Flt := low_passed_pv_r
  -- 5a: Calculate Integral Error
  let g_i_error_l : Flt := Flt.add s.g_i_error_l (Flt.mul error_l g_d_t_sec)
  let g_i_error_r : Flt := Flt.add s.g_i_error_r (Flt.mul error_r g_d_t_sec)
  -- 5b: Perform clamping
  let i_clamp : Flt := i_clamp s
  let g_i_error_l : Flt := Flt.min i_clamp (Flt.max (Flt.neg i_clamp) g_i_error_l)
  let g_i_error_r : Flt := Flt.min i_clamp (Flt.max (Flt.neg i_clamp) g_i_error_r)
  -- 6: Sum P, I and D terms
  let feedback_left : Flt :=
    Flt.add (Flt.add (Flt.mul s.g_p_l error_l) (Flt.mul s.g_d_l d_error_l))
      (Flt.mul s.g_i_l g_i_error_l)
  let feedback_right : Flt :=
    Flt.add (Flt.add (Flt.mul s.g_p_r error_r) (Flt.mul s.g_d_r d_error_r))
      (Flt.mul s.g_i_r g_i_error_r)
  -- 7: Calculate feedforward
  let feedforward_left : Flt := Flt.mul s.g_kv_l s.g_desired_speed_l
  let feedforward_right : Flt := Flt.mul s.g_kv_r s.g_desired_speed_r
  let left_signal : Option Int := Flt.toInt (Flt.round (Flt.add feedforward_left feedback_left))
  let right_signal : Option Int :=
    Flt.toInt (Flt.round (Flt.add feedforward_right feedback_right))
  -- 8: Deadband
  let left_signal : Option Int :=
    if Flt.lt (Flt.abs g_actual_speed_l) (.fin (4 / 25))
        && Flt.lt (Flt.abs s.g_desired_speed_l) (.fin (4 / 25))
    then some 0 else left_signal
  let right_signal : Option Int :=
    if Flt.lt (Flt.abs g_actual_speed_r) (.fin (4 / 25))
        && Flt.lt (Flt.abs s.g_desired_speed_r) (.fin (4 / 25))
    then some 0 else right_signal
  { s with
    g_d_t_sec := g_d_t_sec
    last_loop_time := last_loop_time
    g_actual_speed_l := g_actual_speed_l
    g_actual_speed_r := g_actual_speed_r
    error_l := error_l
    error_r := error_r
    low_passed_pv_l := low_passed_pv_l
    low_passed_pv_r := low_passed_pv_r
    d_error_l := d_error_l
    d_error_r := d_error_r
    g_i_error_l := g_i_error_l
    g_i_error_r := g_i_error_r
    trace := s.trace ++ [Out.setSpeeds right_signal left_signal]
    g_left_output := rd.left_output
    g_right_output := rd.right_output
    actual_speed_last_l := g_actual_speed_l
    actual_speed_last_r := g_actual_speed_r }

end Threaded

/-! ## Notions used to state the properties -/

/-- The value `x` is a number whose absolute value is strictly below `b`. -/
def Flt.AbsBelow (x : Flt) (b : ℚ) : Prop := ∃ q : ℚ, x.toRat = some q ∧ |q| < b

/-- The commands sent to the motor controller, in order, among what was
emitted. -/
def actuatorCommands (trace : List Out) : List Out :=
  trace.filter fun o =>
    match o with
    | .send _ => false
    | _ => true

namespace Main

/-- The states in which `pid()` is invoked while `main` runs from `s` on the given
events, in order: `pid()` is called at one place only, in the session loop after
a frame has been decoded. -/
def pidEntries (meters_per_tick : Flt) (pb_decode : List UInt8 → Option RequestMessage) :
    State → List Event → List State
  | _, [] => []
  | s, e :: events =>
      let rest := pidEntries meters_per_tick pb_decode (step meters_per_tick pb_decode s e) events
      match e with
      | .frame buffer rd =>
          if s.in_session then
            match pb_decode buffer with
            | none => rest
            | some request => beforePid request rd s :: rest
          else rest
      | _ => rest

end Main

/-! ## Concrete inputs -/

/-- Modelled from the spec: the value of the macro `METERS_PER_TICK` of `utils.h`,
`wheel_circumference / (ticks_per_revolution · gear_ratio)`, with the numbers
`threaded_main.cpp` gives for them. -/
def metersPerTick : Flt := .fin (1092 / 1000 / (48 * 32))

/-- Readings of a PID step 100 ms after the previous one, with 10 encoder ticks on
each wheel (about 0.071 m/s). -/
def slowReadings : PidReadings where
  timer_ms_dt := 100
  timer_s := .fin (1 / 10)
  timer_ms_last := 100
  left_ticks := 10
  right_ticks := 10
  left_output := 0
  right_output := 0

/-- A state of `main.cpp` inside a session: gains `k_p = 100`, `k_i = 1`, desired
speed 0.1 m/s on both channels. -/
def Main.slowState : Main.State :=
  { Main.init with
    g_motor_coeffs := ⟨⟨.fin 100, .fin 1, .fin 0, .fin 0⟩, ⟨.fin 100, .fin 1, .fin 0, .fin 0⟩⟩
    g_motor_pair := ⟨⟨.fin (1 / 10), .fin 0, 0⟩, ⟨.fin (1 / 10), .fin 0, 0⟩⟩
    in_session := true }

/-- The initialisers of the globals of `threaded_main.cpp` and of the locals of
`pid_thread()`. -/
def Threaded.init : Threaded.State where
  g_desired_speed_l := .fin 0
  g_desired_speed_r := .fin 0
  g_actual_speed_l := .fin 0
  g_actual_speed_r := .fin 0
  g_i_error_l := .fin 0
  g_i_error_r := .fin 0
  g_d_t_sec := .fin 0
  g_last_error_l := .fin 0
  g_last_error_r := .fin 0
  g_p_l := .fin 0
  g_d_l := .fin 0
  g_p_r := .fin 0
  g_d_r := .fin 0
  g_i_l := .fin 0
  g_i_r := .fin 0
  g_kv_l := .fin 0
  g_kv_r := .fin 0
  g_left_output := 0
  g_right_output := 0
  g_estop := 1
  g_e_stop_light := 0
  last_loop_time := 0
  error_l := .fin 0
  error_r := .fin 0
  d_error_l := .fin 0
  d_error_r := .fin 0
  actual_speed_last_l := .fin 0
  actual_speed_last_r := .fin 0
  low_passed_pv_l := .fin 0
  low_passed_pv_r := .fin 0
  trace := []

/-- A state of `threaded_main.cpp`: gains `k_p = 100`, `k_i = 1`, desired speed
0.1 m/s on both channels. -/
def Threaded.slowState : Threaded.State :=
  { Threaded.init with
    g_p_l := .fin 100
    g_p_r := .fin 100
    g_i_l := .fin 1
    g_i_r := .fin 1
    g_desired_speed_l := .fin (1 / 10)
    g_desired_speed_r := .fin (1 / 10) }

/-- A command frame with Group A only: `k_p = 7`, `k_i = 2`, `k_d = 1/2`,
`k_v = 3` for the left channel and `5`, `4`, `1/4`, `6` for the right one. -/
def tuningRequest : RequestMessage where
  has_p_l := true
  p_l := .fin 7
  p_r := .fin 5
  i_l := .fin 2
  i_r := .fin 4
  d_l := .fin (1 / 2)
  d_r := .fin (1 / 4)
  kv_l := .fin 3
  kv_r := .fin 6
  has_speed_l := false
  speed_l := .fin 0
  speed_r := .fin 0

/-- A command frame with Group B only: desired speeds 2 m/s (left) and 3/2 m/s
(right). -/
def speedRequest : RequestMessage where
  has_p_l := false
  p_l := .fin 0
  p_r := .fin 0
  i_l := .fin 0
  i_r := .fin 0
  d_l := .fin 0
  d_r := .fin 0
  kv_l := .fin 0
  kv_r := .fin 0
  has_speed_l := true
  speed_l := .fin 2
  speed_r := .fin (3 / 2)

/-- A command frame with neither group (`RequestMessage_init_zero`). -/
def emptyRequest : RequestMessage where
  has_p_l := false
  p_l := .fin 0
  p_r := .fin 0
  i_l := .fin 0
  i_r := .fin 0
  d_l := .fin 0
  d_r := .fin 0
  kv_l := .fin 0
  kv_r := .fin 0
  has_speed_l := false
  speed_l := .fin 0
  speed_r := .fin 0

/-- A stand-in for the nanopb decoder: the one-byte buffers `[1]`, `[2]`, `[3]`
decode to the tuning, speed and empty request, every other buffer fails to
decode. -/
def sampleDecode (buffer : List UInt8) : Option RequestMessage :=
  if buffer = [1] then some tuningRequest
  else if buffer = [2] then some speedRequest
  else if buffer = [3] then some emptyRequest
  else none

/-- Readings of a PID step 100 ms after the previous one, with 100 encoder ticks
on each wheel (about 0.71 m/s). -/
def fastReadings : PidReadings where
  timer_ms_dt := 100
  timer_s := .fin (1 / 10)
  timer_ms_last := 100
  left_ticks := 100
  right_ticks := 100
  left_output := 0
  right_output := 0

/-- Readings of a session-loop iteration in which the safety line reads the
tripped level while the wheels turn at about 0.71 m/s. -/
def trippedReadings : FrameReadings where
  timer_ms := 100
  e_stop_status := 0
  pid := fastReadings
  battery := .fin (1 / 2)
  encode_ok := true

/-- Readings of a PID step taken in the same timer millisecond (100) as the
previous one, with no encoder tick. -/
def sameMsReadings : PidReadings where
  timer_ms_dt := 100
  timer_s := .fin (1 / 10)
  timer_ms_last := 100
  left_ticks := 0
  right_ticks := 0
  left_output := 0
  right_output := 0

/-- The state `Main.slowState` with its previous PID step taken at millisecond 100. -/
def Main.sameMsState : Main.State := { Main.slowState with g_last_loop_time := 100 }

/-- The state `Threaded.slowState` with its previous PID step taken at
millisecond 100. -/
def Threaded.sameMsState : Threaded.State := { Threaded.slowState with last_loop_time := 100 }

/-- Readings of a PID step 100 ms after the previous one with the wheels at rest. -/
def restReadings : PidReadings where
  timer_ms_dt := 100
  timer_s := .fin (1 / 10)
  timer_ms_last := 100
  left_ticks := 0
  right_ticks := 0
  left_output := 0
  right_output := 0

/-- A state of `main.cpp` inside a session with a pure-PD tuning (`k_p = 1`,
`k_i = 0`, `k_d = 0`, `k_v = 0`) and desired speed 1 m/s on both channels. -/
def Main.pdState : Main.State :=
  { Main.init with
    g_motor_coeffs := ⟨⟨.fin 1, .fin 0, .fin 0, .fin 0⟩, ⟨.fin 1, .fin 0, .fin 0, .fin 0⟩⟩
    g_motor_pair := ⟨⟨.fin 1, .fin 0, 0⟩, ⟨.fin 1, .fin 0, 0⟩⟩
    in_session := true }

/-- A state of `threaded_main.cpp` with a pure-PD tuning (`k_p = 1`, `k_i = 0`,
`k_d = 0`, `k_v = 0`) and desired speed 1 m/s on both channels. -/
def Threaded.pdState : Threaded.State :=
  { Threaded.init with
    g_p_l := .fin 1
    g_p_r := .fin 1
    g_desired_speed_l := .fin 1
    g_desired_speed_r := .fin 1 }

/-- A state of `main.cpp` inside a session with integral gains 1 (left) and 600
(right), `k_p = 10`, desired speed 2 m/s on both channels, PID runtime at 0. -/
def Main.unevenState : Main.State :=
  { Main.init with
    g_motor_coeffs := ⟨⟨.fin 10, .fin 1, .fin 0, .fin 0⟩, ⟨.fin 10, .fin 600, .fin 0, .fin 0⟩⟩
    g_motor_pair := ⟨⟨.fin 2, .fin 0, 0⟩, ⟨.fin 2, .fin 0, 0⟩⟩
    in_session := true }

/-- A state of `threaded_main.cpp` with integral gains 1 (left) and 600 (right),
`k_p = 10`, desired speed 2 m/s on both channels, PID runtime at 0. -/
def Threaded.unevenState : Threaded.State :=
  { Threaded.init with
    g_p_l := .fin 10
    g_p_r := .fin 10
    g_i_l := .fin 1
    g_i_r := .fin 600
    g_desired_speed_l := .fin 2
    g_desired_speed_r := .fin 2 }

/-- The state `Main.pdState` with the left integral gain `-0.0`, as a request
with `i_l = -0.0` leaves it. -/
def Main.negZeroState : Main.State :=
  { Main.pdState with
    g_motor_coeffs := ⟨⟨.fin 1, .nzero, .fin 0, .fin 0⟩, ⟨.fin 1, .fin 0, .fin 0, .fin 0⟩⟩ }

/-- The state `Threaded.pdState` with the left integral gain `-0.0`. -/
def Threaded.negZeroState : Threaded.State := { Threaded.pdState with g_i_l := .nzero }

/-- What clamping to `[-inf, +inf]` with `std::min`/`std::max` returns: the value
itself, except that NaN becomes `-inf`. -/
def Flt.unclamped : Flt → Flt
  | .nan => .ninf
  | x => x

/-! ## The control law in the words of the specification -/

namespace Spec

end Spec

/-- The state of `main.cpp` and the state of `threaded_main.cpp` agree on what a
PID step reads: the time base, the desired speeds, the eight coefficients and
the PID runtime (integral accumulators, previous actual speeds, low-passed
derivative estimates). -/
def SameControlState (s : Main.State) (t : Threaded.State) : Prop :=
  s.g_last_loop_time = t.last_loop_time ∧
  s.g_motor_pair.left.desired_speed = t.g_desired_speed_l ∧
  s.g_motor_pair.right.desired_speed = t.g_desired_speed_r ∧
  s.g_motor_coeffs.left.k_p = t.g_p_l ∧
  s.g_motor_coeffs.left.k_i = t.g_i_l ∧
  s.g_motor_coeffs.left.k_d = t.g_d_l ∧
  s.g_motor_coeffs.left.k_kv = t.g_kv_l ∧
  s.g_motor_coeffs.right.k_p = t.g_p_r ∧
  s.g_motor_coeffs.right.k_i = t.g_i_r ∧
  s.g_motor_coeffs.right.k_d = t.g_d_r ∧
  s.g_motor_coeffs.right.k_kv = t.g_kv_r ∧
  s.g_i_error_l = t.g_i_error_l ∧
  s.g_i_error_r = t.g_i_error_r ∧
  s.g_actual_speed_last_l = t.actual_speed_last_l ∧
  s.g_actual_speed_last_r = t.actual_speed_last_r ∧
  s.g_low_passed_pv_l = t.low_passed_pv_l ∧
  s.g_low_passed_pv_r = t.low_passed_pv_r

/-! # Properties -/

/-! ## Deadband -/

theorem Flt.lt_abs_of_absBelow {x : Flt} {b : ℚ} (h : x.AbsBelow b) :
    Flt.lt (Flt.abs x) (.fin b) = true := by
  obtain ⟨q, hx, hq⟩ := h
  cases x <;> simp only [Flt.toRat, Option.some.injEq, reduceCtorEq] at hx
  · subst hx
    simpa [Flt.abs, Flt.lt] using hq
  · subst hx
    simpa [Flt.abs, Flt.lt] using hq

/-- C1. Deadband: when the speed measured by the step and the desired speed of a
channel are both strictly below 0.16 in absolute value, the signal that channel
receives in the `setSpeeds` command of the step is exactly 0, whatever the
gains, the controller state and the elapsed time; in `pid()` of `main.cpp` and
in an iteration of `pid_thread()` alike, for the left and for the right
channel. -/
theorem deadband_signal_zero (meters_per_tick : Flt) (rd : PidReadings)
    (s : Main.State) (t : Threaded.State) :
    (((Main.pid meters_per_tick rd s).g_motor_pair.left.actual_speed.AbsBelow (16 / 100) →
        s.g_motor_pair.left.desired_speed.AbsBelow (16 / 100) →
        ∃ right_signal, (Main.pid meters_per_tick rd s).trace
          = s.trace ++ [Out.setSpeeds right_signal (some 0)]) ∧
      ((Main.pid meters_per_tick rd s).g_motor_pair.right.actual_speed.AbsBelow (16 / 100) →
        s.g_motor_pair.right.desired_speed.AbsBelow (16 / 100) →
        ∃ left_signal, (Main.pid meters_per_tick rd s).trace
          = s.trace ++ [Out.setSpeeds (some 0) left_signal])) ∧
    (((Threaded.pid_thread_iter rd t).g_actual_speed_l.AbsBelow (16 / 100) →
        t.g_desired_speed_l.AbsBelow (16 / 100) →
        ∃ right_signal, (Threaded.pid_thread_iter rd t).trace
          = t.trace ++ [Out.setSpeeds right_signal (some 0)]) ∧
      ((Threaded.pid_thread_iter rd t).g_actual_speed_r.AbsBelow (16 / 100) →
        t.g_desired_speed_r.AbsBelow (16 / 100) →
        ∃ left_signal, (Threaded.pid_thread_iter rd t).trace
          = t.trace ++ [Out.setSpeeds (some 0) left_signal])) := by
  have e : ((16 : ℚ) / 100) = 4 / 25 := by norm_num
  refine ⟨⟨?_, ?_⟩, ⟨?_, ?_⟩⟩ <;> intro ha hd <;>
    have ha := Flt.lt_abs_of_absBelow ha <;>
    have hd := Flt.lt_abs_of_absBelow hd <;>
    rw [e] at ha hd
  · simp only [Main.pid] at ha ⊢
    simp [ha, hd]
  · simp only [Main.pid] at ha ⊢
    simp [ha, hd]
  · simp only [Threaded.pid_thread_iter] at ha ⊢
    simp [ha, hd]
  · simp only [Threaded.pid_thread_iter] at ha ⊢
    simp [ha, hd]

/-- Witness of `deadband_signal_zero`: 10 ticks in 100 ms (about 0.071 m/s) with a
desired speed of 0.1 m/s and `k_p = 100`. -/
theorem deadband_signal_zero_witness :
    ((∃ right_signal, (Main.pid metersPerTick slowReadings Main.slowState).trace
        = Main.slowState.trace ++ [Out.setSpeeds right_signal (some 0)]) ∧
      (∃ left_signal, (Main.pid metersPerTick slowReadings Main.slowState).trace
        = Main.slowState.trace ++ [Out.setSpeeds (some 0) left_signal])) ∧
    ((∃ right_signal, (Threaded.pid_thread_iter slowReadings Threaded.slowState).trace
        = Threaded.slowState.trace ++ [Out.setSpeeds right_signal (some 0)]) ∧
      (∃ left_signal, (Threaded.pid_thread_iter slowReadings Threaded.slowState).trace
        = Threaded.slowState.trace ++ [Out.setSpeeds (some 0) left_signal])) := by
  have h := deadband_signal_zero metersPerTick slowReadings Main.slowState Threaded.slowState
  have hd : (Flt.fin (1 / 10)).AbsBelow (16 / 100) := ⟨1 / 10, rfl, by norm_num [abs_lt]⟩
  have hm : (Flt.div (Flt.mul metersPerTick (Flt.ofInt 10))
      (Flt.div (Flt.ofInt (100 - 0)) (.fin 1000))).AbsBelow (16 / 100) :=
    ⟨91 / 1280,
      by norm_num [metersPerTick, Flt.div, Flt.zeroOfSign, Flt.mul, Flt.ofInt, Flt.toRat],
      by norm_num [abs_lt]⟩
  have ht : (Flt.div (Flt.mul Threaded.g_meters_per_tick (Flt.ofInt 10))
      (Flt.div (Flt.ofInt (100 - 0)) (.fin 1000))).AbsBelow (16 / 100) :=
    ⟨91 / 1280,
      by norm_num [Threaded.g_meters_per_tick, Flt.div, Flt.zeroOfSign, Flt.mul, Flt.ofInt,
        Flt.toRat],
      by norm_num [abs_lt]⟩
  exact ⟨⟨h.1.1 hm hd, h.1.2 hm hd⟩, ⟨h.2.1 ht hd, h.2.2 ht hd⟩⟩

/-! ## Tripping the e-stop -/

/-- C2. For every prior state, `triggerEstop()` ends with the e-stop status
Tripped (`g_estop = 0`), both desired speeds 0, both integral accumulators 0, the
safety light asserted (1), and exactly one `stopMotors` command added to what
was sent to the actuator; nothing else changes. In `main.cpp` and in
`threaded_main.cpp` alike. -/
theorem triggerEstop_effect (s : Main.State) (t : Threaded.State) :
    ((Main.triggerEstop s).g_estop = 0 ∧
      (Main.triggerEstop s).g_motor_pair.left.desired_speed = .fin 0 ∧
      (Main.triggerEstop s).g_motor_pair.right.desired_speed = .fin 0 ∧
      (Main.triggerEstop s).g_i_error_l = .fin 0 ∧
      (Main.triggerEstop s).g_i_error_r = .fin 0 ∧
      (Main.triggerEstop s).g_safety_light_enable = 1 ∧
      (Main.triggerEstop s).trace = s.trace ++ [Out.stopMotors]) ∧
    ((Threaded.triggerEstop t).g_estop = 0 ∧
      (Threaded.triggerEstop t).g_desired_speed_l = .fin 0 ∧
      (Threaded.triggerEstop t).g_desired_speed_r = .fin 0 ∧
      (Threaded.triggerEstop t).g_i_error_l = .fin 0 ∧
      (Threaded.triggerEstop t).g_i_error_r = .fin 0 ∧
      (Threaded.triggerEstop t).g_e_stop_light = 1 ∧
      (Threaded.triggerEstop t).trace = t.trace ++ [Out.stopMotors]) := by
  simp [Main.triggerEstop, Threaded.triggerEstop]

/-! ## Applying a command frame -/

/-- C5. Frame conditions of `parseRequest`, in `main.cpp` and in
`threaded_main.cpp`: a request with only Group A present (`has_p_l` set,
`has_speed_l` clear) sets the eight coefficients to the values of the request
and leaves everything else, the desired speeds included, unchanged; a request
with only Group B present sets both desired speeds to `speed_l`, `speed_r` and
leaves everything else, the eight coefficients included, unchanged; a request
with neither group leaves the whole state unchanged. -/
theorem parseRequest_frame (req : RequestMessage) (s : Main.State) (t : Threaded.State) :
    (req.has_p_l = true → req.has_speed_l = false →
      Main.parseRequest req s =
          { s with g_motor_coeffs :=
              ⟨⟨req.p_l, req.i_l, req.d_l, req.kv_l⟩, ⟨req.p_r, req.i_r, req.d_r, req.kv_r⟩⟩ } ∧
        Threaded.parseRequest req t =
          { t with
            g_p_l := req.p_l, g_p_r := req.p_r, g_d_l := req.d_l, g_d_r := req.d_r
            g_i_l := req.i_l, g_i_r := req.i_r, g_kv_l := req.kv_l, g_kv_r := req.kv_r }) ∧
    (req.has_p_l = false → req.has_speed_l = true →
      Main.parseRequest req s =
          { s with g_motor_pair :=
              ⟨{ s.g_motor_pair.left with desired_speed := req.speed_l },
                { s.g_motor_pair.right with desired_speed := req.speed_r }⟩ } ∧
        Threaded.parseRequest req t =
          { t with g_desired_speed_l := req.speed_l, g_desired_speed_r := req.speed_r }) ∧
    (req.has_p_l = false → req.has_speed_l = false →
      Main.parseRequest req s = s ∧ Threaded.parseRequest req t = t) := by
  refine ⟨?_, ?_, ?_⟩ <;> intro ha hb <;>
    simp [Main.parseRequest, Threaded.parseRequest, ha, hb]

/-- Witness of `parseRequest_frame`: a tuning-only frame, a speed-only frame and
an empty frame applied to states with gains 100 / 1 and desired speed 0.1. -/
theorem parseRequest_frame_witness :
    ((Main.parseRequest tuningRequest Main.slowState).g_motor_pair
        = Main.slowState.g_motor_pair ∧
      (Main.parseRequest tuningRequest Main.slowState).g_motor_coeffs
        = ⟨⟨.fin 7, .fin 2, .fin (1 / 2), .fin 3⟩, ⟨.fin 5, .fin 4, .fin (1 / 4), .fin 6⟩⟩ ∧
      (Threaded.parseRequest tuningRequest Threaded.slowState).g_desired_speed_l
        = .fin (1 / 10)) ∧
    ((Main.parseRequest speedRequest Main.slowState).g_motor_coeffs
        = Main.slowState.g_motor_coeffs ∧
      (Main.parseRequest speedRequest Main.slowState).g_motor_pair.left.desired_speed
        = .fin 2 ∧
      (Threaded.parseRequest speedRequest Threaded.slowState).g_i_l = .fin 1 ∧
      (Threaded.parseRequest speedRequest Threaded.slowState).g_desired_speed_r
        = .fin (3 / 2)) ∧
    (Main.parseRequest emptyRequest Main.slowState = Main.slowState ∧
      Threaded.parseRequest emptyRequest Threaded.slowState = Threaded.slowState) := by
  have hA := (parseRequest_frame tuningRequest Main.slowState Threaded.slowState).1 rfl rfl
  have hB := (parseRequest_frame speedRequest Main.slowState Threaded.slowState).2.1 rfl rfl
  have hC := (parseRequest_frame emptyRequest Main.slowState Threaded.slowState).2.2 rfl rfl
  refine ⟨⟨?_, ?_, ?_⟩, ⟨?_, ?_, ?_, ?_⟩, hC⟩
  · rw [hA.1]
  · rw [hA.1]; rfl
  · rw [hA.2]; rfl
  · rw [hB.1]
  · rw [hB.1]; rfl
  · rw [hB.2]; rfl
  · rw [hB.2]; rfl

/-! ## The session loop of `main.cpp` -/

namespace Main

theorem parseRequest_trace (req : RequestMessage) (s : State) :
    (parseRequest req s).trace = s.trace := by
  unfold parseRequest
  split <;> split <;> rfl

theorem beforePid_estop_zero (req : RequestMessage) (rd : FrameReadings) (s : State)
    (h : (beforePid req rd s).g_estop = 0) :
    (beforePid req rd s).g_motor_pair.left.desired_speed = .fin 0 ∧
      (beforePid req rd s).g_motor_pair.right.desired_speed = .fin 0 := by
  unfold beforePid estopLogic at h ⊢
  split
  · simp [triggerEstop]
  · rename_i hne
    simp [hne] at h

theorem pidEntries_estop_zero (meters_per_tick : Flt)
    (pb_decode : List UInt8 → Option RequestMessage) (events : List Event) :
    ∀ s t : State, t ∈ pidEntries meters_per_tick pb_decode s events → t.g_estop = 0 →
      t.g_motor_pair.left.desired_speed = .fin 0 ∧
        t.g_motor_pair.right.desired_speed = .fin 0 := by
  induction events with
  | nil => intro s t ht; simp [pidEntries] at ht
  | cons e events ih =>
      intro s t ht h0
      unfold pidEntries at ht
      cases e with
      | accept => exact ih _ t ht h0
      | recvError => exact ih _ t ht h0
      | peerClose => exact ih _ t ht h0
      | frame buffer rd =>
          simp only at ht
          split at ht
          · split at ht
            · exact ih _ t ht h0
            · rcases List.mem_cons.mp ht with rfl | ht
              · exact beforePid_estop_zero _ _ _ h0
              · exact ih _ t ht h0
          · exact ih _ t ht h0

end Main

/-- C3. Single-loop variant: whatever the sequence of session events from the
initial state (accepts, receive errors, decodable or undecodable frames with any
contents, any safety-line reading, peer closes), in every state in which `pid()`
is invoked, if the e-stop status is Tripped (`g_estop = 0`) then the desired
speed of both channels is 0. -/
theorem pid_invoked_tripped_desired_zero (meters_per_tick : Flt)
    (pb_decode : List UInt8 → Option RequestMessage) (events : List Event) (t : Main.State)
    (ht : t ∈ Main.pidEntries meters_per_tick pb_decode Main.init events)
    (h0 : t.g_estop = 0) :
    t.g_motor_pair.left.desired_speed = .fin 0 ∧
      t.g_motor_pair.right.desired_speed = .fin 0 :=
  Main.pidEntries_estop_zero meters_per_tick pb_decode events Main.init t ht h0

/-- Witness of `pid_invoked_tripped_desired_zero`: a client connects and sends a
frame with desired speeds 2 and 3/2 m/s in a cycle whose safety line reads the
tripped level; `pid()` is invoked (once) with `g_estop = 0` and both desired
speeds 0. -/
theorem pid_invoked_tripped_desired_zero_witness :
    Main.pidEntries metersPerTick sampleDecode Main.init
        [Event.accept, Event.frame [2] trippedReadings]
      = [Main.beforePid speedRequest trippedReadings { Main.init with in_session := true }] ∧
    (Main.beforePid speedRequest trippedReadings
        { Main.init with in_session := true }).g_estop = 0 ∧
    (Main.beforePid speedRequest trippedReadings
        { Main.init with in_session := true }).g_motor_pair.left.desired_speed = .fin 0 ∧
    (Main.beforePid speedRequest trippedReadings
        { Main.init with in_session := true }).g_motor_pair.right.desired_speed = .fin 0 := by
  have hmem : Main.pidEntries metersPerTick sampleDecode Main.init
        [Event.accept, Event.frame [2] trippedReadings]
      = [Main.beforePid speedRequest trippedReadings { Main.init with in_session := true }] := by
    simp [Main.pidEntries, Main.step, Main.init, sampleDecode]
  have h0 : (Main.beforePid speedRequest trippedReadings
        { Main.init with in_session := true }).g_estop = 0 := by
    simp [Main.beforePid, Main.estopLogic, trippedReadings, Main.triggerEstop]
  exact ⟨hmem, h0,
    pid_invoked_tripped_desired_zero metersPerTick sampleDecode
      [Event.accept, Event.frame [2] trippedReadings] _ (by rw [hmem]; simp) h0⟩

namespace Main

theorem timerCheck_trace (timer_ms : Int) (s : State) :
    (timerCheck timer_ms s).trace = s.trace := by
  unfold timerCheck
  split <;> rfl

theorem pid_trace (meters_per_tick : Flt) (rd : PidReadings) (s : State) :
    ∃ right_signal left_signal,
      (pid meters_per_tick rd s).trace = s.trace ++ [Out.setSpeeds right_signal left_signal] :=
  ⟨_, _, rfl⟩

theorem sendResponse_actuatorCommands (battery : Flt) (encode_ok : Bool) (s : State) :
    actuatorCommands (sendResponse battery encode_ok s).1.trace = actuatorCommands s.trace := by
  unfold sendResponse
  cases encode_ok <;> simp [actuatorCommands]

theorem sendResponse_motor_pair (battery : Flt) (encode_ok : Bool) (s : State) :
    (sendResponse battery encode_ok s).1.g_motor_pair = s.g_motor_pair := by
  unfold sendResponse
  cases encode_ok <;> rfl

theorem pid_deadband (meters_per_tick : Flt) (rd : PidReadings) (s : State) :
    ∃ right_signal left_signal,
      (pid meters_per_tick rd s).trace = s.trace ++ [Out.setSpeeds right_signal left_signal] ∧
      (Flt.lt (Flt.abs (pid meters_per_tick rd s).g_motor_pair.left.actual_speed)
            (.fin (4 / 25)) = true →
          Flt.lt (Flt.abs s.g_motor_pair.left.desired_speed) (.fin (4 / 25)) = true →
          left_signal = some 0) ∧
      (Flt.lt (Flt.abs (pid meters_per_tick rd s).g_motor_pair.right.actual_speed)
            (.fin (4 / 25)) = true →
          Flt.lt (Flt.abs s.g_motor_pair.right.desired_speed) (.fin (4 / 25)) = true →
          right_signal = some 0) := by
  refine ⟨_, _, rfl, ?_, ?_⟩ <;> intro ha hd <;> simp only [pid] at ha <;> simp [ha, hd]

theorem beforePid_tripped (req : RequestMessage) (rd : FrameReadings) (s : State)
    (h : rd.e_stop_status = 0) :
    beforePid req rd s = triggerEstop (timerCheck rd.timer_ms (parseRequest req s)) := by
  simp [beforePid, estopLogic, h]

end Main

/-- C4, refuted as stated: in a cycle whose safety line reads the tripped level,
with the wheels turning at about 0.71 m/s and `k_p = 100`, the controller
receives `stopMotors` and then `setSpeeds(-71, -71)` computed by `pid()`: the
last actuator command of the cycle is not the stop. -/
theorem tripped_cycle_pid_not_bypassed :
    trippedReadings.e_stop_status = 0 ∧
    actuatorCommands
        (Main.serveRequest metersPerTick speedRequest trippedReadings Main.slowState).trace
      = [Out.stopMotors, Out.setSpeeds (some (-71)) (some (-71))] := by
  refine ⟨rfl, ?_⟩
  rw [Main.serveRequest, Main.sendResponse_actuatorCommands]
  simp [Main.pid, Main.beforePid, Main.estopLogic, Main.timerCheck, Main.parseRequest,
    Main.triggerEstop, Main.i_clamp, Main.slowState, Main.init, speedRequest, trippedReadings,
    fastReadings, metersPerTick, actuatorCommands,
    Flt.div, Flt.zeroOfSign, Flt.mul, Flt.add, Flt.sub, Flt.ofInt, Flt.neg, Flt.min, Flt.max, Flt.lt,
    Flt.abs, Flt.round, Flt.toInt, Flt.roundQ]
  norm_num [le_abs]

/-- C4, amended. In a cycle of the session loop in which the safety line reads the
tripped level, the e-stop is entered before `pid()` runs (`g_estop = 0`, both
desired speeds and both integral accumulators 0, safety light on) and the
actuator is commanded to stop, but the PID engine is not bypassed: `pid()` runs
in the same cycle and issues one `setSpeeds` after the stop, so the actuator
commands of the cycle are exactly `stopMotors` followed by `setSpeeds`. The
signal of a channel in that `setSpeeds` is 0 when the speed measured for the
channel in the cycle is strictly below 0.16 in absolute value. -/
theorem tripped_cycle_stop_then_pid (meters_per_tick : Flt) (req : RequestMessage)
    (rd : FrameReadings) (s : Main.State) (h : rd.e_stop_status = 0) :
    ((Main.beforePid req rd s).g_estop = 0 ∧
      (Main.beforePid req rd s).g_motor_pair.left.desired_speed = .fin 0 ∧
      (Main.beforePid req rd s).g_motor_pair.right.desired_speed = .fin 0 ∧
      (Main.beforePid req rd s).g_i_error_l = .fin 0 ∧
      (Main.beforePid req rd s).g_i_error_r = .fin 0 ∧
      (Main.beforePid req rd s).g_safety_light_enable = 1) ∧
    ∃ right_signal left_signal,
      actuatorCommands (Main.serveRequest meters_per_tick req rd s).trace
        = actuatorCommands s.trace
          ++ [Out.stopMotors, Out.setSpeeds right_signal left_signal] ∧
      ((Main.serveRequest meters_per_tick req rd s).g_motor_pair.left.actual_speed.AbsBelow
          (16 / 100) → left_signal = some 0) ∧
      ((Main.serveRequest meters_per_tick req rd s).g_motor_pair.right.actual_speed.AbsBelow
          (16 / 100) → right_signal = some 0) := by
  have e : ((16 : ℚ) / 100) = 4 / 25 := by norm_num
  have z : Flt.lt (Flt.abs (.fin 0)) (.fin (4 / 25)) = true := by
    simp [Flt.abs, Flt.lt]
  have hb := Main.beforePid_tripped req rd s h
  have hf : (Main.beforePid req rd s).g_estop = 0 ∧
      (Main.beforePid req rd s).g_motor_pair.left.desired_speed = .fin 0 ∧
      (Main.beforePid req rd s).g_motor_pair.right.desired_speed = .fin 0 ∧
      (Main.beforePid req rd s).g_i_error_l = .fin 0 ∧
      (Main.beforePid req rd s).g_i_error_r = .fin 0 ∧
      (Main.beforePid req rd s).g_safety_light_enable = 1 := by
    rw [hb]; simp [Main.triggerEstop]
  have htr : (Main.beforePid req rd s).trace = s.trace ++ [Out.stopMotors] := by
    rw [hb]
    simp [Main.triggerEstop, Main.timerCheck_trace, Main.parseRequest_trace]
  obtain ⟨r, l, hp, hl, hr⟩ := Main.pid_deadband meters_per_tick rd.pid (Main.beforePid req rd s)
  refine ⟨hf, r, l, ?_, ?_, ?_⟩
  · rw [Main.serveRequest, Main.sendResponse_actuatorCommands, hp, htr]
    simp [actuatorCommands]
  · intro ha
    have ha := Flt.lt_abs_of_absBelow ha
    rw [e, Main.serveRequest, Main.sendResponse_motor_pair] at ha
    exact hl ha (by rw [hf.2.1]; exact z)
  · intro ha
    have ha := Flt.lt_abs_of_absBelow ha
    rw [e, Main.serveRequest, Main.sendResponse_motor_pair] at ha
    exact hr ha (by rw [hf.2.2.1]; exact z)

/-- Witness of `tripped_cycle_stop_then_pid`: a tripped cycle with the wheels at
about 0.71 m/s, started with an empty trace. -/
theorem tripped_cycle_stop_then_pid_witness :
    trippedReadings.e_stop_status = 0 ∧
    (Main.beforePid speedRequest trippedReadings Main.slowState).g_motor_pair.left.desired_speed
      = .fin 0 ∧
    ∃ right_signal left_signal,
      actuatorCommands
          (Main.serveRequest metersPerTick speedRequest trippedReadings Main.slowState).trace
        = actuatorCommands Main.slowState.trace
          ++ [Out.stopMotors, Out.setSpeeds right_signal left_signal] :=
  ⟨rfl,
    (tripped_cycle_stop_then_pid metersPerTick speedRequest trippedReadings Main.slowState
      rfl).1.2.1,
    (tripped_cycle_stop_then_pid metersPerTick speedRequest trippedReadings Main.slowState
      rfl).2.imp fun _ hr => hr.imp fun _ hl => hl.1⟩

/-- C6. In the session loop, a received buffer whose decoding fails leaves the
whole state as it was: the shared control state (desired speeds, coefficients,
e-stop status, integral accumulators, PID runtime, telemetry values), the trace
(no actuator command is issued and no telemetry frame is sent) and the control
location (the session stays open). -/
theorem decode_failure_ignored (meters_per_tick : Flt)
    (pb_decode : List UInt8 → Option RequestMessage) (s : Main.State)
    (buffer : List UInt8) (rd : FrameReadings) (hdec : pb_decode buffer = none) :
    Main.step meters_per_tick pb_decode s (.frame buffer rd) = s ∧
      (Main.step meters_per_tick pb_decode s (.frame buffer rd)).trace = s.trace ∧
      (Main.step meters_per_tick pb_decode s (.frame buffer rd)).in_session = s.in_session := by
  have h : Main.step meters_per_tick pb_decode s (.frame buffer rd) = s := by
    simp [Main.step, hdec]
  rw [h]
  exact ⟨rfl, rfl, rfl⟩

/-- Witness of `decode_failure_ignored`: the buffer `[9]`, which `sampleDecode`
rejects, received in a session while the safety line reads the tripped level. -/
theorem decode_failure_ignored_witness :
    sampleDecode [9] = none ∧ Main.slowState.in_session = true ∧
    Main.step metersPerTick sampleDecode Main.slowState (.frame [9] trippedReadings)
      = Main.slowState :=
  ⟨by decide, rfl,
    (decode_failure_ignored metersPerTick sampleDecode Main.slowState [9] trippedReadings
      (by decide)).1⟩

/-! ## Arithmetic on values that are not finite -/

namespace Flt

theorem isFinite_div_zero (x : Flt) : (div x (fin 0)).isFinite = false := by
  cases x <;> simp only [div, le_refl, if_true] <;> first | rfl | (split_ifs <;> rfl)

theorem isFinite_neg {a : Flt} (h : a.isFinite = false) : (neg a).isFinite = false := by
  cases a <;> first | rfl | simp [isFinite] at h

theorem isFinite_add_left {a : Flt} (b : Flt) (h : a.isFinite = false) :
    (add a b).isFinite = false := by
  cases a <;> cases b <;> first | rfl | simp [isFinite] at h

theorem isFinite_add_right (a : Flt) {b : Flt} (h : b.isFinite = false) :
    (add a b).isFinite = false := by
  cases a <;> cases b <;> first | rfl | simp [isFinite] at h

theorem isFinite_sub_right (a : Flt) {b : Flt} (h : b.isFinite = false) :
    (sub a b).isFinite = false :=
  isFinite_add_right a (isFinite_neg h)

theorem isFinite_infTimes (pos : Bool) (q : ℚ) : (infTimes pos q).isFinite = false := by
  unfold infTimes
  split_ifs <;> rfl

theorem isFinite_mul_left {a : Flt} (b : Flt) (h : a.isFinite = false) :
    (mul a b).isFinite = false := by
  cases a <;> cases b <;>
    first | rfl | exact isFinite_infTimes _ _ | simp [isFinite] at h

theorem isFinite_mul_right (a : Flt) {b : Flt} (h : b.isFinite = false) :
    (mul a b).isFinite = false := by
  cases a <;> cases b <;>
    first | rfl | exact isFinite_infTimes _ _ | simp [isFinite] at h

theorem isFinite_div_left {a : Flt} (b : Flt) (h : a.isFinite = false) :
    (div a b).isFinite = false := by
  cases a <;> cases b <;>
    first
    | rfl
    | (simp only [div]; split_ifs <;> rfl)
    | simp [isFinite] at h

theorem mul_zero_of_not_finite {a : Flt} (h : a.isFinite = false) : mul a (fin 0) = nan := by
  cases a <;> first | rfl | simp [isFinite] at h

theorem add_nan (a : Flt) : add a nan = nan := by
  cases a <;> rfl

theorem max_nan (a : Flt) : max a nan = a := by
  cases a <;> rfl

theorem toInt_round_of_not_finite {a : Flt} (h : a.isFinite = false) :
    toInt (round a) = none := by
  cases a <;> first | rfl | simp [isFinite] at h

theorem lt_abs_of_not_finite {a : Flt} (b : Flt) (h : a.isFinite = false) :
    lt (abs a) b = false := by
  cases a <;> cases b <;> first | rfl | simp [isFinite] at h

end Flt
namespace Flt

/-- One channel of the PID step when the elapsed time `dt` is 0: the measured
speed and the filtered derivative are not finite, the clamped accumulator is
`min c (-c)` whatever it held, and the conversion of the rounded sum to `int` is
undefined. -/
theorem zero_dt_channel (mpt : Flt) (ticks : Int) (dt desired last lp i_err kp kd ki kv c : Flt)
    (hz : dt = fin 0) :
    (div (mul mpt (ofInt ticks)) dt).isFinite = false ∧
    (add (div (mul (fin (3 / 4)) (sub last (div (mul mpt (ofInt ticks)) dt))) dt)
        (mul (sub (fin 1) (fin (3 / 4))) lp)).isFinite = false ∧
    min c (max (neg c) (add i_err (mul (sub desired (div (mul mpt (ofInt ticks)) dt)) dt)))
      = min c (neg c) ∧
    toInt (round (add (mul kv desired)
      (add
        (add (mul kp (sub desired (div (mul mpt (ofInt ticks)) dt)))
          (mul kd (add (div (mul (fin (3 / 4)) (sub last (div (mul mpt (ofInt ticks)) dt))) dt)
            (mul (sub (fin 1) (fin (3 / 4))) lp))))
        (mul ki (min c (max (neg c)
          (add i_err (mul (sub desired (div (mul mpt (ofInt ticks)) dt)) dt)))))))) = none ∧
    lt (abs (div (mul mpt (ofInt ticks)) dt)) (fin (4 / 25)) = false := by
  subst hz
  have ha := isFinite_div_zero (mul mpt (ofInt ticks))
  have he := isFinite_sub_right desired ha
  refine ⟨ha, ?_, ?_, ?_, lt_abs_of_not_finite _ ha⟩
  · exact isFinite_add_left _ (isFinite_div_zero _)
  · rw [mul_zero_of_not_finite he, add_nan, max_nan]
  · exact toInt_round_of_not_finite
      (isFinite_add_right _ (isFinite_add_left _ (isFinite_add_left _ (isFinite_mul_right _ he))))

end Flt

/-- C7, refuted as stated: a PID step taken in the same timer millisecond as the
previous one (`dt_sec = 0`) with `k_i = 1` and accumulators at 0 is not a no-op:
the left accumulator becomes -60, the filtered derivative becomes NaN, and the
signals passed to `setSpeeds` are undefined conversions. -/
theorem zero_dt_step_not_noop :
    (Main.pid metersPerTick sameMsReadings Main.sameMsState).g_d_t_sec = .fin 0 ∧
    Main.sameMsState.g_i_error_l = .fin 0 ∧
    (Main.pid metersPerTick sameMsReadings Main.sameMsState).g_i_error_l = .fin (-60) ∧
    Main.sameMsState.g_low_passed_pv_l = .fin 0 ∧
    (Main.pid metersPerTick sameMsReadings Main.sameMsState).g_low_passed_pv_l = .nan ∧
    (Main.pid metersPerTick sameMsReadings Main.sameMsState).trace
      = [Out.setSpeeds none none] := by
  norm_num [Main.pid, Main.i_clamp, Main.sameMsState, Main.slowState, Main.init,
    sameMsReadings, metersPerTick, Flt.div, Flt.zeroOfSign, Flt.mul, Flt.add, Flt.sub,
    Flt.ofInt, Flt.neg, Flt.min, Flt.max, Flt.lt, Flt.abs, Flt.round, Flt.toInt, Flt.roundQ,
    Flt.infTimes]

/-- C7, amended. The PID step has no guard on the elapsed time: for every state
and readings, `pid()` of `main.cpp` and an iteration of `pid_thread()` store
`dt_sec = (read_ms - last_loop_time) / 1000` and divide by it whatever its sign.
When `dt_sec` is 0 the step is not a no-op: the measured speeds and the filtered
derivatives it stores are not finite, both integral accumulators are overwritten
with `min(i_clamp, -i_clamp)` whatever they held, and both signals passed to
`setSpeeds` come from an undefined conversion to `int`. -/
theorem pid_step_no_dt_guard (meters_per_tick : Flt) (rd : PidReadings)
    (s : Main.State) (t : Threaded.State) :
    ((Main.pid meters_per_tick rd s).g_d_t_sec
        = Flt.div (Flt.ofInt (rd.timer_ms_dt - s.g_last_loop_time)) (.fin 1000) ∧
      (Main.pid meters_per_tick rd s).g_motor_pair.left.actual_speed
        = Flt.div (Flt.mul meters_per_tick (Flt.ofInt rd.left_ticks))
            (Main.pid meters_per_tick rd s).g_d_t_sec ∧
      (Main.pid meters_per_tick rd s).g_motor_pair.right.actual_speed
        = Flt.div (Flt.mul meters_per_tick (Flt.ofInt rd.right_ticks))
            (Main.pid meters_per_tick rd s).g_d_t_sec) ∧
    (rd.timer_ms_dt = s.g_last_loop_time →
      (Main.pid meters_per_tick rd s).g_d_t_sec = .fin 0 ∧
      (Main.pid meters_per_tick rd s).g_motor_pair.left.actual_speed.isFinite = false ∧
      (Main.pid meters_per_tick rd s).g_motor_pair.right.actual_speed.isFinite = false ∧
      (Main.pid meters_per_tick rd s).g_low_passed_pv_l.isFinite = false ∧
      (Main.pid meters_per_tick rd s).g_low_passed_pv_r.isFinite = false ∧
      (Main.pid meters_per_tick rd s).g_i_error_l
        = Flt.min (Main.i_clamp s) (Flt.neg (Main.i_clamp s)) ∧
      (Main.pid meters_per_tick rd s).g_i_error_r
        = Flt.min (Main.i_clamp s) (Flt.neg (Main.i_clamp s)) ∧
      (Main.pid meters_per_tick rd s).trace = s.trace ++ [Out.setSpeeds none none]) ∧
    ((Threaded.pid_thread_iter rd t).g_d_t_sec
        = Flt.div (Flt.ofInt (rd.timer_ms_dt - t.last_loop_time)) (.fin 1000) ∧
      (Threaded.pid_thread_iter rd t).g_actual_speed_l
        = Flt.div (Flt.mul Threaded.g_meters_per_tick (Flt.ofInt rd.left_ticks))
            (Threaded.pid_thread_iter rd t).g_d_t_sec ∧
      (Threaded.pid_thread_iter rd t).g_actual_speed_r
        = Flt.div (Flt.mul Threaded.g_meters_per_tick (Flt.ofInt rd.right_ticks))
            (Threaded.pid_thread_iter rd t).g_d_t_sec) ∧
    (rd.timer_ms_dt = t.last_loop_time →
      (Threaded.pid_thread_iter rd t).g_d_t_sec = .fin 0 ∧
      (Threaded.pid_thread_iter rd t).g_actual_speed_l.isFinite = false ∧
      (Threaded.pid_thread_iter rd t).g_actual_speed_r.isFinite = false ∧
      (Threaded.pid_thread_iter rd t).low_passed_pv_l.isFinite = false ∧
      (Threaded.pid_thread_iter rd t).low_passed_pv_r.isFinite = false ∧
      (Threaded.pid_thread_iter rd t).g_i_error_l
        = Flt.min (Threaded.i_clamp t) (Flt.neg (Threaded.i_clamp t)) ∧
      (Threaded.pid_thread_iter rd t).g_i_error_r
        = Flt.min (Threaded.i_clamp t) (Flt.neg (Threaded.i_clamp t)) ∧
      (Threaded.pid_thread_iter rd t).trace = t.trace ++ [Out.setSpeeds none none]) := by
  refine ⟨⟨rfl, rfl, rfl⟩, ?_, ⟨rfl, rfl, rfl⟩, ?_⟩
  · intro h
    have hz : Flt.div (Flt.ofInt (rd.timer_ms_dt - s.g_last_loop_time)) (.fin 1000) = .fin 0 := by
      simp [h, Flt.ofInt, Flt.div, Flt.zeroOfSign]
    have hl := Flt.zero_dt_channel meters_per_tick rd.left_ticks _
      s.g_motor_pair.left.desired_speed s.g_actual_speed_last_l s.g_low_passed_pv_l
      s.g_i_error_l s.g_motor_coeffs.left.k_p s.g_motor_coeffs.left.k_d
      s.g_motor_coeffs.left.k_i s.g_motor_coeffs.left.k_kv (Main.i_clamp s) hz
    have hr := Flt.zero_dt_channel meters_per_tick rd.right_ticks _
      s.g_motor_pair.right.desired_speed s.g_actual_speed_last_r s.g_low_passed_pv_r
      s.g_i_error_r s.g_motor_coeffs.right.k_p s.g_motor_coeffs.right.k_d
      s.g_motor_coeffs.right.k_i s.g_motor_coeffs.right.k_kv (Main.i_clamp s) hz
    refine ⟨hz, hl.1, hr.1, hl.2.1, hr.2.1, hl.2.2.1, hr.2.2.1, ?_⟩
    simp only [Main.pid]
    rw [hl.2.2.2.1, hr.2.2.2.1, hl.2.2.2.2, hr.2.2.2.2]
    rfl
  · intro h
    have hz : Flt.div (Flt.ofInt (rd.timer_ms_dt - t.last_loop_time)) (.fin 1000) = .fin 0 := by
      simp [h, Flt.ofInt, Flt.div, Flt.zeroOfSign]
    have hl := Flt.zero_dt_channel Threaded.g_meters_per_tick rd.left_ticks _
      t.g_desired_speed_l t.actual_speed_last_l t.low_passed_pv_l
      t.g_i_error_l t.g_p_l t.g_d_l t.g_i_l t.g_kv_l (Threaded.i_clamp t) hz
    have hr := Flt.zero_dt_channel Threaded.g_meters_per_tick rd.right_ticks _
      t.g_desired_speed_r t.actual_speed_last_r t.low_passed_pv_r
      t.g_i_error_r t.g_p_r t.g_d_r t.g_i_r t.g_kv_r (Threaded.i_clamp t) hz
    refine ⟨hz, hl.1, hr.1, hl.2.1, hr.2.1, hl.2.2.1, hr.2.2.1, ?_⟩
    simp only [Threaded.pid_thread_iter]
    rw [hl.2.2.2.1, hr.2.2.2.1, hl.2.2.2.2, hr.2.2.2.2]
    rfl

/-- Witness of `pid_step_no_dt_guard`: a step taken in the same timer millisecond
as the previous one, in both variants. -/
theorem pid_step_no_dt_guard_witness :
    sameMsReadings.timer_ms_dt = Main.sameMsState.g_last_loop_time ∧
    (Main.pid metersPerTick sameMsReadings Main.sameMsState).g_motor_pair.left.actual_speed.isFinite
      = false ∧
    sameMsReadings.timer_ms_dt = Threaded.sameMsState.last_loop_time ∧
    (Threaded.pid_thread_iter sameMsReadings Threaded.sameMsState).trace
      = Threaded.sameMsState.trace ++ [Out.setSpeeds none none] :=
  ⟨rfl,
    ((pid_step_no_dt_guard metersPerTick sameMsReadings Main.sameMsState
      Threaded.sameMsState).2.1 rfl).2.1,
    rfl,
    ((pid_step_no_dt_guard metersPerTick sameMsReadings Main.sameMsState
      Threaded.sameMsState).2.2.2 rfl).2.2.2.2.2.2.2⟩

/-! ## The integral clamp -/

theorem Flt.clamp_pinf (x : Flt) :
    Flt.min .pinf (Flt.max (Flt.neg .pinf) x) = x.unclamped := by
  cases x <;> rfl

/-- C8, refuted as stated: in the initial state, where `k_i = 0`, the clamp bound
of `pid()` and of `pid_thread()` is the result of `60 / 0`, which is `+inf`: not
a finite value, and no fallback replaces it. -/
theorem zero_ki_clamp_not_finite :
    Main.init.g_motor_coeffs.left.k_i = .fin 0 ∧
    Main.i_clamp Main.init = Flt.div (.fin 60) (.fin 0) ∧
    (Main.i_clamp Main.init).isFinite = false ∧
    Threaded.init.g_i_l = .fin 0 ∧
    Threaded.i_clamp Threaded.init = Flt.div (.fin 60) (.fin 0) ∧
    (Threaded.i_clamp Threaded.init).isFinite = false := by
  refine ⟨rfl, rfl, ?_, rfl, rfl, ?_⟩ <;>
    simp [Main.i_clamp, Main.init, Threaded.i_clamp, Threaded.init, Flt.div, Flt.isFinite]

/-- C8, amended. For every state whose (left) integral gain `k_i` is a zero, the
PID step of both variants evaluates `60 / k_i` with the zero divisor and takes
no fallback: the clamp bound is not finite, `+inf` for `k_i = +0.0` and `-inf` for
`k_i = -0.0`, and each accumulator is clamped with that bound by the same
`min`/`max` as for every other gain. -/
theorem zero_ki_clamp_infinite (meters_per_tick : Flt) (rd : PidReadings)
    (s : Main.State) (t : Threaded.State) :
    ((s.g_motor_coeffs.left.k_i = .fin 0 → Main.i_clamp s = .pinf) ∧
      (s.g_motor_coeffs.left.k_i = .nzero → Main.i_clamp s = .ninf) ∧
      (Main.pid meters_per_tick rd s).g_i_error_l
        = Flt.min (Main.i_clamp s) (Flt.max (Flt.neg (Main.i_clamp s))
            (Flt.add s.g_i_error_l
              (Flt.mul (Main.pid meters_per_tick rd s).g_error_l
                (Main.pid meters_per_tick rd s).g_d_t_sec))) ∧
      (Main.pid meters_per_tick rd s).g_i_error_r
        = Flt.min (Main.i_clamp s) (Flt.max (Flt.neg (Main.i_clamp s))
            (Flt.add s.g_i_error_r
              (Flt.mul (Main.pid meters_per_tick rd s).g_error_r
                (Main.pid meters_per_tick rd s).g_d_t_sec)))) ∧
    ((t.g_i_l = .fin 0 → Threaded.i_clamp t = .pinf) ∧
      (t.g_i_l = .nzero → Threaded.i_clamp t = .ninf) ∧
      (Threaded.pid_thread_iter rd t).g_i_error_l
        = Flt.min (Threaded.i_clamp t) (Flt.max (Flt.neg (Threaded.i_clamp t))
            (Flt.add t.g_i_error_l
              (Flt.mul (Threaded.pid_thread_iter rd t).error_l
                (Threaded.pid_thread_iter rd t).g_d_t_sec))) ∧
      (Threaded.pid_thread_iter rd t).g_i_error_r
        = Flt.min (Threaded.i_clamp t) (Flt.max (Flt.neg (Threaded.i_clamp t))
            (Flt.add t.g_i_error_r
              (Flt.mul (Threaded.pid_thread_iter rd t).error_r
                (Threaded.pid_thread_iter rd t).g_d_t_sec)))) := by
  refine ⟨⟨?_, ?_, rfl, rfl⟩, ⟨?_, ?_, rfl, rfl⟩⟩ <;> intro h
  · simp [Main.i_clamp, h, Flt.div]
  · simp [Main.i_clamp, h, Flt.div]
  · simp [Threaded.i_clamp, h, Flt.div]
  · simp [Threaded.i_clamp, h, Flt.div]

/-- Witness of `zero_ki_clamp_infinite`: the pure-PD tuning `k_p = 1`, `k_i = 0`,
desired speed 1 m/s, wheels at rest, 100 ms step, and the same tuning with
`k_i = -0.0`. -/
theorem zero_ki_clamp_infinite_witness :
    Main.pdState.g_motor_coeffs.left.k_i = .fin 0 ∧
    Main.i_clamp Main.pdState = .pinf ∧
    Main.negZeroState.g_motor_coeffs.left.k_i = .nzero ∧
    Main.i_clamp Main.negZeroState = .ninf ∧
    Threaded.pdState.g_i_l = .fin 0 ∧
    Threaded.i_clamp Threaded.pdState = .pinf ∧
    Threaded.negZeroState.g_i_l = .nzero ∧
    Threaded.i_clamp Threaded.negZeroState = .ninf :=
  ⟨rfl,
    (zero_ki_clamp_infinite metersPerTick restReadings Main.pdState Threaded.pdState).1.1 rfl,
    rfl,
    (zero_ki_clamp_infinite metersPerTick restReadings Main.negZeroState
      Threaded.negZeroState).1.2.1 rfl,
    rfl,
    (zero_ki_clamp_infinite metersPerTick restReadings Main.pdState Threaded.pdState).2.1 rfl,
    rfl,
    (zero_ki_clamp_infinite metersPerTick restReadings Main.negZeroState
      Threaded.negZeroState).2.2.1 rfl⟩

theorem Flt.clamp_ninf (x : Flt) :
    Flt.min .ninf (Flt.max (Flt.neg .ninf) x) = .ninf := by
  cases x <;> rfl

/-- With the integral gain `+0.0` the accumulators are not clamped: each is the
sum `i_error + error * dt_sec` itself (a NaN sum is stored as `-inf`). With the
integral gain `-0.0` both accumulators are `-inf` after the step, whatever they
held. In both variants. -/
theorem zero_ki_accumulators (meters_per_tick : Flt) (rd : PidReadings)
    (s : Main.State) (t : Threaded.State) :
    (s.g_motor_coeffs.left.k_i = .fin 0 →
      (Main.pid meters_per_tick rd s).g_i_error_l
        = (Flt.add s.g_i_error_l
            (Flt.mul (Main.pid meters_per_tick rd s).g_error_l
              (Main.pid meters_per_tick rd s).g_d_t_sec)).unclamped ∧
      (Main.pid meters_per_tick rd s).g_i_error_r
        = (Flt.add s.g_i_error_r
            (Flt.mul (Main.pid meters_per_tick rd s).g_error_r
              (Main.pid meters_per_tick rd s).g_d_t_sec)).unclamped) ∧
    (s.g_motor_coeffs.left.k_i = .nzero →
      (Main.pid meters_per_tick rd s).g_i_error_l = .ninf ∧
      (Main.pid meters_per_tick rd s).g_i_error_r = .ninf) ∧
    (t.g_i_l = .fin 0 →
      (Threaded.pid_thread_iter rd t).g_i_error_l
        = (Flt.add t.g_i_error_l
            (Flt.mul (Threaded.pid_thread_iter rd t).error_l
              (Threaded.pid_thread_iter rd t).g_d_t_sec)).unclamped ∧
      (Threaded.pid_thread_iter rd t).g_i_error_r
        = (Flt.add t.g_i_error_r
            (Flt.mul (Threaded.pid_thread_iter rd t).error_r
              (Threaded.pid_thread_iter rd t).g_d_t_sec)).unclamped) ∧
    (t.g_i_l = .nzero →
      (Threaded.pid_thread_iter rd t).g_i_error_l = .ninf ∧
      (Threaded.pid_thread_iter rd t).g_i_error_r = .ninf) := by
  refine ⟨?_, ?_, ?_, ?_⟩ <;> intro h
  · have hc : Main.i_clamp s = .pinf := by simp [Main.i_clamp, h, Flt.div]
    constructor <;> simp only [Main.pid, hc] <;> exact Flt.clamp_pinf _
  · have hc : Main.i_clamp s = .ninf := by simp [Main.i_clamp, h, Flt.div]
    constructor <;> simp only [Main.pid, hc] <;> exact Flt.clamp_ninf _
  · have hc : Threaded.i_clamp t = .pinf := by simp [Threaded.i_clamp, h, Flt.div]
    constructor <;> simp only [Threaded.pid_thread_iter, hc] <;> exact Flt.clamp_pinf _
  · have hc : Threaded.i_clamp t = .ninf := by simp [Threaded.i_clamp, h, Flt.div]
    constructor <;> simp only [Threaded.pid_thread_iter, hc] <;> exact Flt.clamp_ninf _

theorem Flt.clamp_fin (c : ℚ) (hc : 0 ≤ c) (x : Flt) :
    ∃ a : ℚ, (Flt.min (.fin c) (Flt.max (Flt.neg (.fin c)) x)).toRat = some a ∧ |a| ≤ c := by
  have hmin : ∀ y : Flt, (y = .pinf ∨ ∃ q : ℚ, y.toRat = some q ∧ -c ≤ q) →
      ∃ a : ℚ, (Flt.min (.fin c) y).toRat = some a ∧ |a| ≤ c := by
    intro y hy
    have hcc : |c| ≤ c := abs_le.mpr ⟨by linarith, le_rfl⟩
    rcases hy with rfl | ⟨q, hq, hle⟩
    · exact ⟨c, rfl, hcc⟩
    · cases y <;> simp only [Flt.toRat, Option.some.injEq, reduceCtorEq] at hq
      · subst hq
        simp only [Flt.min, Flt.lt]
        split_ifs with h
        · simp only [decide_eq_true_eq] at h
          exact ⟨_, rfl, abs_le.mpr ⟨hle, h.le⟩⟩
        · exact ⟨c, rfl, hcc⟩
      · subst hq
        simp only [Flt.min, Flt.lt]
        split_ifs with h
        · exact ⟨0, rfl, by simpa using hc⟩
        · exact ⟨c, rfl, hcc⟩
  apply hmin
  have hneg : ∃ q : ℚ, (Flt.neg (.fin c)).toRat = some q ∧ -c ≤ q := by
    simp only [Flt.neg]
    split_ifs with h0
    · exact ⟨0, rfl, by linarith⟩
    · exact ⟨-c, rfl, le_rfl⟩
  have hlow : ∀ y : Flt, Flt.lt (Flt.neg (.fin c)) y = true →
      y = .pinf ∨ ∃ q : ℚ, y.toRat = some q ∧ -c ≤ q := by
    intro y hy
    simp only [Flt.neg] at hy
    cases y <;> split_ifs at hy with h0 <;> simp only [Flt.lt, decide_eq_true_eq,
      Bool.false_eq_true] at hy
    · exact Or.inr ⟨_, rfl, by linarith⟩
    · exact Or.inr ⟨_, rfl, hy.le⟩
    · exact Or.inr ⟨0, rfl, by linarith⟩
    · exact Or.inl rfl
    · exact Or.inl rfl
  unfold Flt.max
  split_ifs with h
  · exact hlow x h
  · exact Or.inr hneg

/-- Anti-windup as the code has it: when the left integral gain `k_i` is strictly
positive, after one PID step both accumulators, the right one included, are
numbers that lie in `[-60 / k_i, 60 / k_i]` for that left gain; in both
variants. -/
theorem accumulators_clamped_by_left_gain (meters_per_tick : Flt) (rd : PidReadings)
    (s : Main.State) (t : Threaded.State) (k : ℚ) (hk : 0 < k) :
    (s.g_motor_coeffs.left.k_i = .fin k →
      (∃ a : ℚ, (Main.pid meters_per_tick rd s).g_i_error_l.toRat = some a ∧ |a| ≤ 60 / k) ∧
      (∃ b : ℚ, (Main.pid meters_per_tick rd s).g_i_error_r.toRat = some b ∧ |b| ≤ 60 / k)) ∧
    (t.g_i_l = .fin k →
      (∃ a : ℚ, (Threaded.pid_thread_iter rd t).g_i_error_l.toRat = some a ∧ |a| ≤ 60 / k) ∧
      (∃ b : ℚ, (Threaded.pid_thread_iter rd t).g_i_error_r.toRat = some b ∧
        |b| ≤ 60 / k)) := by
  have h60 : (0 : ℚ) ≤ 60 / k := by positivity
  constructor
  · intro h
    have hc : Main.i_clamp s = .fin (60 / k) := by
      simp [Main.i_clamp, h, Flt.div, hk.ne']
    constructor <;> simp only [Main.pid, hc] <;> exact Flt.clamp_fin _ h60 _
  · intro h
    have hc : Threaded.i_clamp t = .fin (60 / k) := by
      simp [Threaded.i_clamp, h, Flt.div, hk.ne']
    constructor <;> simp only [Threaded.pid_thread_iter, hc] <;> exact Flt.clamp_fin _ h60 _

/-- C9, the code at the failing input: with integral gains 1 (left) and 600
(right), desired speed 2 m/s, wheels at rest and a 100 ms step from a zeroed
runtime, the clamp bound is `60 / 1 = 60` for both channels and the right
accumulator ends at 1/5, outside the interval `[-1/10, 1/10]` that its own gain
gives (`60 / 600 = 1/10`); in both variants. -/
theorem right_accumulator_exceeds_own_bound :
    (Main.i_clamp Main.unevenState = .fin 60 ∧
      Flt.div (.fin 60) Main.unevenState.g_motor_coeffs.right.k_i = .fin (1 / 10) ∧
      (Main.pid metersPerTick restReadings Main.unevenState).g_i_error_r = .fin (1 / 5)) ∧
    (Threaded.i_clamp Threaded.unevenState = .fin 60 ∧
      Flt.div (.fin 60) Threaded.unevenState.g_i_r = .fin (1 / 10) ∧
      (Threaded.pid_thread_iter restReadings Threaded.unevenState).g_i_error_r
        = .fin (1 / 5)) := by
  refine ⟨⟨?_, ?_, ?_⟩, ⟨?_, ?_, ?_⟩⟩ <;>
    norm_num [Main.pid, Main.i_clamp, Main.unevenState, Main.init,
      Threaded.pid_thread_iter, Threaded.i_clamp, Threaded.unevenState, Threaded.init,
      Threaded.g_meters_per_tick, restReadings, metersPerTick,
      Flt.div, Flt.zeroOfSign, Flt.mul, Flt.add, Flt.sub, Flt.ofInt, Flt.neg, Flt.min, Flt.max, Flt.lt]

/-! ## End-to-end scenario -/

namespace Flt

end Flt

/-- The scenario with the integral gain `-0.0` instead of `+0.0`: the clamp bound
is `-inf`, the left accumulator becomes `-inf`, its product with the gain is NaN
and the left signal is an undefined conversion, not 1; so is the right signal,
whose accumulator is clamped with the same bound. -/
theorem scenario_negative_zero_gain :
    Main.i_clamp Main.negZeroState = .ninf ∧
    (Main.pid metersPerTick restReadings Main.negZeroState).g_i_error_l = .ninf ∧
    (Main.pid metersPerTick restReadings Main.negZeroState).trace
      = [Out.setSpeeds none none] := by
  refine ⟨?_, ?_, ?_⟩ <;>
    norm_num [Main.pid, Main.i_clamp, Main.negZeroState, Main.pdState, Main.init,
      restReadings, metersPerTick, Flt.div, Flt.zeroOfSign, Flt.mul, Flt.add, Flt.sub,
      Flt.ofInt, Flt.neg, Flt.min, Flt.max, Flt.lt, Flt.abs, Flt.round, Flt.toInt,
      Flt.roundQ, Flt.infTimes]

/-! ## What a trip resets -/

/-- C11, refuted as stated: after a PID step with the wheels at about 0.71 m/s
the previous actual speed is 91/128 and the low-passed derivative estimate is
-1365/256; `triggerEstop()` leaves both as they are, so they are not 0 after
the trip. -/
theorem trip_keeps_derivative_runtime :
    (Main.triggerEstop
        (Main.pid metersPerTick fastReadings Main.slowState)).g_actual_speed_last_l
      = .fin (91 / 128) ∧
    (Main.triggerEstop
        (Main.pid metersPerTick fastReadings Main.slowState)).g_low_passed_pv_l
      = .fin (-1365 / 256) := by
  constructor <;>
    norm_num [Main.triggerEstop, Main.pid, Main.slowState, Main.init, fastReadings,
      metersPerTick, Flt.div, Flt.zeroOfSign, Flt.mul, Flt.add, Flt.sub, Flt.ofInt, Flt.neg]

/-- C11, amended. Whenever `triggerEstop()` is executed, of the per-channel PID
runtime only the integral accumulators are reset to 0, for both channels; the
low-passed derivative estimates (`g_low_passed_pv_l/r`) and the previous-cycle
actual speeds (`g_actual_speed_last_l/r`) keep the values they had before, for
every prior state. In `threaded_main.cpp` likewise, where the two are locals of
`pid_thread()`. -/
theorem trip_resets_accumulators_only (s : Main.State) (t : Threaded.State) :
    ((Main.triggerEstop s).g_i_error_l = .fin 0 ∧
      (Main.triggerEstop s).g_i_error_r = .fin 0 ∧
      (Main.triggerEstop s).g_low_passed_pv_l = s.g_low_passed_pv_l ∧
      (Main.triggerEstop s).g_low_passed_pv_r = s.g_low_passed_pv_r ∧
      (Main.triggerEstop s).g_actual_speed_last_l = s.g_actual_speed_last_l ∧
      (Main.triggerEstop s).g_actual_speed_last_r = s.g_actual_speed_last_r) ∧
    ((Threaded.triggerEstop t).g_i_error_l = .fin 0 ∧
      (Threaded.triggerEstop t).g_i_error_r = .fin 0 ∧
      (Threaded.triggerEstop t).low_passed_pv_l = t.low_passed_pv_l ∧
      (Threaded.triggerEstop t).low_passed_pv_r = t.low_passed_pv_r ∧
      (Threaded.triggerEstop t).actual_speed_last_l = t.actual_speed_last_l ∧
      (Threaded.triggerEstop t).actual_speed_last_r = t.actual_speed_last_r) := by
  simp [Main.triggerEstop, Threaded.triggerEstop]

/-! ## The control law -/

namespace Flt

end Flt

theorem Threaded.g_meters_per_tick_eq :
    Threaded.g_meters_per_tick = .fin (1092 / 1000 / (48 * 32)) := by
  norm_num [Threaded.g_meters_per_tick, Flt.div, Flt.zeroOfSign, Flt.mul, Flt.ofInt]

/-- C13. With `METERS_PER_TICK` equal to `1.092 / (48 * 32)` and the same timer
readings and encoder ticks, from states that agree on the time base, the desired
speeds, the coefficients and the PID runtime, one call of `pid()` in `main.cpp`
and one iteration of the loop of `pid_thread()` produce the same `dt_sec`, the
same actual speeds, the same integral accumulators, the same derivative-filter
runtime and the same `(right_signal, left_signal)` pair passed to `setSpeeds`;
the two states agree again afterwards. -/
theorem variants_same_step (meters_per_tick : Flt) (rd : PidReadings)
    (s : Main.State) (t : Threaded.State)
    (hm : meters_per_tick = .fin (1092 / 1000 / (48 * 32))) (h : SameControlState s t) :
    (Main.pid meters_per_tick rd s).g_d_t_sec = (Threaded.pid_thread_iter rd t).g_d_t_sec ∧
    (Main.pid meters_per_tick rd s).g_motor_pair.left.actual_speed
      = (Threaded.pid_thread_iter rd t).g_actual_speed_l ∧
    (Main.pid meters_per_tick rd s).g_motor_pair.right.actual_speed
      = (Threaded.pid_thread_iter rd t).g_actual_speed_r ∧
    (Main.pid meters_per_tick rd s).g_i_error_l = (Threaded.pid_thread_iter rd t).g_i_error_l ∧
    (Main.pid meters_per_tick rd s).g_i_error_r = (Threaded.pid_thread_iter rd t).g_i_error_r ∧
    (Main.pid meters_per_tick rd s).g_low_passed_pv_l
      = (Threaded.pid_thread_iter rd t).low_passed_pv_l ∧
    (Main.pid meters_per_tick rd s).g_low_passed_pv_r
      = (Threaded.pid_thread_iter rd t).low_passed_pv_r ∧
    (Main.pid meters_per_tick rd s).g_actual_speed_last_l
      = (Threaded.pid_thread_iter rd t).actual_speed_last_l ∧
    (Main.pid meters_per_tick rd s).g_actual_speed_last_r
      = (Threaded.pid_thread_iter rd t).actual_speed_last_r ∧
    (∃ right_signal left_signal,
      (Main.pid meters_per_tick rd s).trace
        = s.trace ++ [Out.setSpeeds right_signal left_signal] ∧
      (Threaded.pid_thread_iter rd t).trace
        = t.trace ++ [Out.setSpeeds right_signal left_signal]) ∧
    SameControlState (Main.pid meters_per_tick rd s) (Threaded.pid_thread_iter rd t) := by
  obtain ⟨h1, h2, h3, h4, h5, h6, h7, h8, h9, h10, h11, h12, h13, h14, h15, h16, h17⟩ := h
  have hg := Threaded.g_meters_per_tick_eq
  subst hm
  refine ⟨?_, ?_, ?_, ?_, ?_, ?_, ?_, ?_, ?_, ?_, ?_⟩
  · simp only [Main.pid, Threaded.pid_thread_iter, h1]
  · simp only [Main.pid, Threaded.pid_thread_iter, hg, h1]
  · simp only [Main.pid, Threaded.pid_thread_iter, hg, h1]
  · simp only [Main.pid, Threaded.pid_thread_iter, Main.i_clamp, Threaded.i_clamp, hg,
      h1, h2, h5, h12]
  · simp only [Main.pid, Threaded.pid_thread_iter, Main.i_clamp, Threaded.i_clamp, hg,
      h1, h3, h5, h13]
  · simp only [Main.pid, Threaded.pid_thread_iter, hg, h1, h14, h16]
  · simp only [Main.pid, Threaded.pid_thread_iter, hg, h1, h15, h17]
  · simp only [Main.pid, Threaded.pid_thread_iter, hg, h1]
  · simp only [Main.pid, Threaded.pid_thread_iter, hg, h1]
  · refine ⟨_, _, rfl, ?_⟩
    simp only [Threaded.pid_thread_iter, Main.i_clamp, Threaded.i_clamp, hg,
      h1, h2, h3, h4, h5, h6, h7, h8, h9, h10, h11, h12, h13, h14, h15, h16, h17]
  · unfold SameControlState
    simp only [Main.pid, Threaded.pid_thread_iter, Main.i_clamp, Threaded.i_clamp, hg,
      h1, h2, h3, h4, h5, h6, h7, h8, h9, h10, h11, h12, h13, h14, h15, h16, h17, and_self]

/-- Witness of `variants_same_step`: the two variants with gains `k_p = 100`,
`k_i = 1`, desired speed 0.1 m/s, and 100 ticks in 100 ms. -/
theorem variants_same_step_witness :
    SameControlState Main.slowState Threaded.slowState ∧
    (Main.pid metersPerTick fastReadings Main.slowState).g_i_error_r
      = (Threaded.pid_thread_iter fastReadings Threaded.slowState).g_i_error_r ∧
    ∃ right_signal left_signal,
      (Main.pid metersPerTick fastReadings Main.slowState).trace
        = Main.slowState.trace ++ [Out.setSpeeds right_signal left_signal] ∧
      (Threaded.pid_thread_iter fastReadings Threaded.slowState).trace
        = Threaded.slowState.trace ++ [Out.setSpeeds right_signal left_signal] :=
  have hs : SameControlState Main.slowState Threaded.slowState :=
    ⟨rfl, rfl, rfl, rfl, rfl, rfl, rfl, rfl, rfl, rfl, rfl, rfl, rfl, rfl, rfl, rfl, rfl⟩
  ⟨hs,
    (variants_same_step metersPerTick fastReadings Main.slowState Threaded.slowState
      rfl hs).2.2.2.2.1,
    (variants_same_step metersPerTick fastReadings Main.slowState Threaded.slowState
      rfl hs).2.2.2.2.2.2.2.2.2.1⟩

end Igvc
